import Mathlib

set_option maxRecDepth 4000

/-
  Verification of the synchronization core of mx-puppet-bridge.

  Shallow embedding of the code under src/: the content-addressed upload
  cache (PuppetBridge.uploadContent in src/src/puppetbridge.ts), the room
  synchronization engine (RoomSyncroniser in src/src/db/schema/v10.ts,
  second document) and the user synchronization engine (UserSyncroniser in
  src/unnamed/part_000).

  External collaborators (the matrix transport client, the appservice
  namespace helper, the download helper) are modelled as oracle functions
  supplied through environment records; persistence stores are modelled as
  explicit lists threaded through the functions; asynchronous calls that can
  fail are modelled with Except.  Pieces of this repository that are not
  under src/ (structures/lock.ts, util.ts, structures/stringformatter.ts,
  the db store classes) are modelled from the spec; each such definition
  carries a doc comment starting with: Modelled from the spec.
-/

namespace MxPuppetBridge

/-- A byte buffer, as its list of byte values. -/
abbrev Buffer := List Nat

/-- Body of a matrix transport error; the errcode may be absent. -/
structure ErrBody where
  errcode : Option String
  deriving DecidableEq, Repr

/-- A matrix transport error as the code observes it: err.body may be
absent entirely (in which case reading err.body.errcode itself throws). -/
structure MatrixError where
  body : Option ErrBody
  deriving DecidableEq, Repr

/-- Modelled from the spec: Util.HashBuffer (util.ts is not part of src/).
The content digest of a byte buffer, the fingerprint used by the
content-addressed upload cache; modelled as an injective rendering of the
bytes. -/
def hashBuffer (b : Buffer) : String :=
  "sha256:" ++ String.intercalate "," (b.map (fun n => toString n))

/- ## Content-addressed upload cache: PuppetBridge.uploadContent
   (src/src/puppetbridge.ts lines 654-718). -/

/-- The two calls uploadContent can issue to collaborators outside
persistence: downloading a string locator and uploading a buffer. -/
inductive UCOp
  | download
  | upload
  deriving DecidableEq, Repr

/-- Environment of uploadContent: the persistence lookup store.getFileMxc
and the transport oracles.  filenameFromUrl abstracts the filename regex on
the locator (its value feeds only the upload call), getMimeType abstracts
Util.GetMimeType sniffing. -/
structure UploadEnv where
  getFileMxc : String → Option String
  download : String → Except MatrixError Buffer
  uploadCall : Buffer → String → String → Except MatrixError String
  filenameFromUrl : String → Option String
  getMimeType : Buffer → String

/-- Decidable equality for Except results, used to evaluate witnesses. -/
instance instDecEqExcept {E A : Type} [DecidableEq E] [DecidableEq A] : DecidableEq (Except E A) :=
  fun x y =>
    match x, y with
    | Except.ok a, Except.ok b =>
      if h : a = b then isTrue (by rw [h]) else isFalse (fun hc => h (Except.ok.inj hc))
    | Except.error a, Except.error b =>
      if h : a = b then isTrue (by rw [h]) else isFalse (fun hc => h (Except.error.inj hc))
    | Except.ok _, Except.error _ => isFalse (fun hc => Except.noConfusion hc)
    | Except.error _, Except.ok _ => isFalse (fun hc => Except.noConfusion hc)

/-- The argument thing: a string locator or a byte buffer. -/
inductive Thing
  | str (s : String)
  | buf (b : Buffer)
  deriving DecidableEq, Repr

/-- Result of one uploadContent call: the returned value or re-raised
error, the keys of the mxcLookupLock still held when the call completes,
the (fingerprint, reference) pairs written to persistence, and the
transport calls issued. -/
structure UploadOut where
  ret : Except MatrixError String
  locks : List String
  sets : List (String × String)
  ops : List UCOp
  deriving DecidableEq, Repr

/-- Second half of uploadContent, from the content-digest block on: hash
the buffer, take the per-digest lock, consult the cache, otherwise upload
and persist under both fingerprints and release every acquired lock.  The
early cache-hit return leaves the locks list held, exactly as the source
does (there is no finally block). -/
def uploadAfterBuffer (env : UploadEnv) (locks0 : List String) (locator : Option String)
    (buf : Buffer) (mimetype filename : Option String) (ops0 : List UCOp) : UploadOut :=
  let h := hashBuffer buf
  let locks := locks0 ++ [h]
  match env.getFileMxc h with
  | some url => { ret := Except.ok url, locks := locks, sets := [], ops := ops0 }
  | none =>
    let fn := match filename with
      | some f => f
      | none => "file"
    let mt := match mimetype with
      | some m => m
      | none => env.getMimeType buf
    match env.uploadCall buf mt fn with
    | Except.error e => { ret := Except.error e, locks := [], sets := [], ops := ops0 ++ [UCOp.upload] }
    | Except.ok mxcUrl =>
      let sets :=
        (match locator with
         | some s => [(s, mxcUrl)]
         | none => []) ++ [(h, mxcUrl)]
      { ret := Except.ok mxcUrl, locks := [], sets := sets, ops := ops0 ++ [UCOp.upload] }

/-- PuppetBridge.uploadContent (src/src/puppetbridge.ts lines 654-718).
For a string locator: lock on the locator, consult the cache (early return
on hit, locks kept), derive a filename, download; then in both cases the
content-digest block of uploadAfterBuffer.  The catch releases every
acquired lock and re-raises. -/
def uploadContent (env : UploadEnv) (thing : Thing) (mimetype filename : Option String) : UploadOut :=
  match thing with
  | Thing.buf b => uploadAfterBuffer env [] none b mimetype filename []
  | Thing.str s =>
    let locks := [s]
    match env.getFileMxc s with
    | some url => { ret := Except.ok url, locks := locks, sets := [], ops := [] }
    | none =>
      let fn := match filename with
        | some f => some f
        | none => env.filenameFromUrl s
      match env.download s with
      | Except.error e => { ret := Except.error e, locks := [], sets := [], ops := [UCOp.download] }
      | Except.ok buf => uploadAfterBuffer env locks (some s) buf mimetype fn [UCOp.download]

/-- A concrete upload environment whose persistence already caches the
digest of the buffer [1, 2] under the reference mxc://cached. -/
def uploadEnvW : UploadEnv :=
  { getFileMxc := fun k => if k = hashBuffer [1, 2] then some "mxc://cached" else none
    download := fun _ => Except.error { body := none }
    uploadCall := fun _ _ _ => Except.ok "mxc://fresh"
    filenameFromUrl := fun _ => none
    getMimeType := fun _ => "application/octet-stream" }

/- ## Profile reconciler and id escaping (util.ts and
   structures/stringformatter.ts are not part of src/, so these are
   modelled from the spec). -/

/-- An entity profile as the reconciler sees it: a display name and an
avatar locator. -/
structure Profile where
  name : Option String
  avatarUrl : Option String
  deriving DecidableEq, Repr

/-- The diff returned by the reconciler: each field is present (some)
exactly when it changed, mirroring hasOwnProperty checks on the result
object in the source. -/
structure ProfileUpdate where
  name : Option String
  avatarUrl : Option String
  avatarMxc : Option String
  deriving DecidableEq, Repr

/-- The empty diff: nothing changed. -/
def emptyProfileUpdate : ProfileUpdate := { name := none, avatarUrl := none, avatarMxc := none }

/-- Substitution of a replacement for each occurrence of the token
:name in a character list. -/
def substNameAux (repl : List Char) : List Char → List Char
  | ':' :: 'n' :: 'a' :: 'm' :: 'e' :: rest => repl ++ substNameAux repl rest
  | c :: rest => c :: substNameAux repl rest
  | [] => []

/-- Modelled from the spec: StringFormatter template substitution
(structures/stringformatter.ts is not part of src/).  Substitutes the
observed name into the name template. -/
def applyNamePattern (pattern name : String) : String :=
  String.mk (substNameAux name.data pattern.data)

/-- Modelled from the spec: Util.ProcessProfileUpdate (util.ts is not part
of src/).  Pure diff of the stored profile against the observed profile:
the new name is the observed name substituted into the template, included
only when different from the stored name; the avatar is compared by
content fingerprint (fp maps an avatar locator to the fingerprint of its
content), and only a genuine change uploads through the upload cache (upl
returns the stored reference for the locator) and returns the new
reference. -/
def processProfileUpdate (fp upl : String → String) (pattern : String)
    (old : Option Profile) (observed : Profile) : ProfileUpdate :=
  let newName := observed.name.map (applyNamePattern pattern)
  let nameChanged :=
    match newName, old with
    | none, _ => false
    | some _, none => true
    | some nn, some o => decide (o.name ≠ some nn)
  let avatarChanged :=
    match observed.avatarUrl, old with
    | none, _ => false
    | some _, none => true
    | some u, some o =>
      match o.avatarUrl with
      | none => true
      | some ou => decide (fp u ≠ fp ou)
  { name := if nameChanged then newName else none
    avatarUrl := if avatarChanged then observed.avatarUrl else none
    avatarMxc := if avatarChanged then observed.avatarUrl.map upl else none }

/-- Hex digit character for a value below 16. -/
def hexDigitChar (n : Nat) : Char :=
  if n < 10 then Char.ofNat (48 + n) else Char.ofNat (87 + n)

/-- Value of a hex digit character. -/
def hexDigitVal (c : Char) : Nat :=
  if c.toNat ≥ 97 then c.toNat - 87 else c.toNat - 48

/-- Modelled from the spec: Util.str2mxid (util.ts is not part of src/),
the deterministic escaping of a remote id into an mxid-safe localpart.
Lowercase letters, digits, dot and dash pass through; an uppercase letter
becomes an underscore plus its lowercase; anything else becomes an equals
sign plus two hex digits. -/
def char2mxid (c : Char) : List Char :=
  if c.isLower ∨ c.isDigit ∨ c = '-' ∨ c = '.' then [c]
  else if c.isUpper then ['_', c.toLower]
  else ['=', hexDigitChar (c.toNat / 16 % 16), hexDigitChar (c.toNat % 16)]

/-- Escaping of a whole string, character by character. -/
def str2mxid (s : String) : String :=
  String.mk (s.data.map char2mxid).flatten

/-- Modelled from the spec: Util.mxid2str, the inverse unescaping, on the
underlying character list. -/
def mxid2strAux : List Char → List Char
  | [] => []
  | '_' :: c :: rest => c.toUpper :: mxid2strAux rest
  | '=' :: a :: b :: rest => Char.ofNat (hexDigitVal a * 16 + hexDigitVal b) :: mxid2strAux rest
  | c :: rest => c :: mxid2strAux rest

/-- Unescaping of a whole string. -/
def mxid2str (s : String) : String :=
  String.mk (mxid2strAux s.data)

/-- Numeric value of a run of decimal digit characters, as Number does on
an all-digit string. -/
def natOfDigits (l : List Char) : Nat :=
  l.foldl (fun acc c => acc * 10 + (c.toNat - 48)) 0

/-- The suffix regex of both getPartsFromMxid implementations: a match of
the anchored pattern of one or more digits, an underscore and the rest.
The digit group can only be the full leading digit run (every shorter
candidate is followed by another digit, not an underscore), so the match
succeeds exactly when the character right after the leading digit run is
an underscore. -/
def parseSuffix (s : String) : Option (Nat × String) :=
  let digits := s.data.takeWhile Char.isDigit
  if digits.isEmpty then none
  else
    match s.data.dropWhile Char.isDigit with
    | [] => none
    | c :: tail => if c = '_' then some (natOfDigits digits, String.mk tail) else none

/-- JavaScript truthiness of the optional strings the source tests with a
bare if: absent and empty are falsy. -/
def strTruthy : Option String → Bool
  | none => false
  | some s => s != ""

/-- JavaScript a || b on optional strings: keep a when truthy, else b. -/
def strOr (a b : Option String) : Option String :=
  if strTruthy a then a else b

/-- JavaScript user.name || "" coalescing to a plain string. -/
def valOrEmpty : Option String → String
  | none => ""
  | some s => s

/- ## Data model (entity records).  IRemoteRoom / IRemoteUser are from
   interfaces.ts (not in src/; field list as used by the code under src/
   and by spec section 3); the store entries are modelled from spec
   section 3 plus the fields the code under src/ reads and writes. -/

/-- A remote conversation handed to the room engine. -/
structure RemoteRoom where
  puppetId : Nat
  roomId : String
  isDirect : Bool
  name : Option String
  avatarUrl : Option String
  topic : Option String
  groupId : Option String
  deriving DecidableEq, Repr

/-- Persisted room mapping. -/
structure RoomStoreEntry where
  mxid : String
  roomId : String
  puppetId : Nat
  name : Option String
  avatarUrl : Option String
  avatarMxc : Option String
  topic : Option String
  groupId : Option String
  deriving DecidableEq, Repr

/-- A remote account handed to the user engine; roomOverrides is the
per-room profile override map, modelled as an association list. -/
structure RemoteUser where
  puppetId : Nat
  userId : String
  name : Option String
  avatarUrl : Option String
  roomOverrides : List (String × Profile)
  deriving DecidableEq, Repr

/-- Persisted ghost mapping. -/
structure UserStoreEntry where
  puppetId : Nat
  userId : String
  name : Option String
  avatarUrl : Option String
  avatarMxc : Option String
  deriving DecidableEq, Repr

/-- Persisted per-room profile override, child of a user and a room. -/
structure RoomOverrideEntry where
  puppetId : Nat
  userId : String
  roomId : String
  name : Option String
  avatarUrl : Option String
  avatarMxc : Option String
  deriving DecidableEq, Repr

/- ## Persistence collaborators, modelled from the spec as keyed list
   stores (the db store classes are not part of src/). -/

/-- The room store: mappings plus the per-room operator store. -/
structure RoomStore where
  entries : List RoomStoreEntry
  roomOps : List (String × String)
  deriving DecidableEq, Repr

/-- roomStore.getByRemote. -/
def getByRemote (st : RoomStore) (puppetId : Nat) (roomId : String) : Option RoomStoreEntry :=
  st.entries.find? (fun e => e.puppetId == puppetId && e.roomId == roomId)

/-- roomStore.getByMxid. -/
def getByMxid (st : RoomStore) (mxid : String) : Option RoomStoreEntry :=
  st.entries.find? (fun e => e.mxid == mxid)

/-- roomStore.getRoomOp. -/
def getRoomOpStore (st : RoomStore) (mxid : String) : Option String :=
  (st.roomOps.find? (fun p => p.fst == mxid)).map Prod.snd

/-- roomStore.setRoomOp. -/
def setRoomOpStore (st : RoomStore) (mxid uid : String) : RoomStore :=
  { st with roomOps := (mxid, uid) :: st.roomOps.filter (fun p => p.fst != mxid) }

/-- roomStore.set: upsert keyed by (puppetId, roomId). -/
def roomStoreSet (st : RoomStore) (e : RoomStoreEntry) : RoomStore :=
  { st with entries := e :: st.entries.filter (fun x => !(x.puppetId == e.puppetId && x.roomId == e.roomId)) }

/-- roomStore.delete: removes the mapping and its operator record. -/
def roomStoreDelete (st : RoomStore) (e : RoomStoreEntry) : RoomStore :=
  { entries := st.entries.filter (fun x => !(x.puppetId == e.puppetId && x.roomId == e.roomId))
    roomOps := st.roomOps.filter (fun p => p.fst != e.mxid) }

/-- The user store: ghost mappings plus room overrides. -/
structure UserStore where
  entries : List UserStoreEntry
  overrides : List RoomOverrideEntry
  deriving DecidableEq, Repr

/-- userStore.get. -/
def findUser (st : UserStore) (pid : Nat) (uid : String) : Option UserStoreEntry :=
  st.entries.find? (fun e => e.puppetId == pid && e.userId == uid)

/-- userStore.getRoomOverride. -/
def findOverride (st : UserStore) (pid : Nat) (uid rid : String) : Option RoomOverrideEntry :=
  st.overrides.find? (fun o => o.puppetId == pid && o.userId == uid && o.roomId == rid)

/-- userStore.getAllRoomOverrides. -/
def getAllRoomOverrides (st : UserStore) (pid : Nat) (uid : String) : List RoomOverrideEntry :=
  st.overrides.filter (fun o => o.puppetId == pid && o.userId == uid)

/-- userStore.set: upsert keyed by (puppetId, userId). -/
def userStoreSetF (st : UserStore) (e : UserStoreEntry) : UserStore :=
  { st with entries := e :: st.entries.filter (fun x => !(x.puppetId == e.puppetId && x.userId == e.userId)) }

/-- userStore.setRoomOverride: upsert keyed by (puppetId, userId, roomId). -/
def overrideStoreSetF (st : UserStore) (o : RoomOverrideEntry) : UserStore :=
  { st with overrides := o :: st.overrides.filter (fun x => !(x.puppetId == o.puppetId && x.userId == o.userId && x.roomId == o.roomId)) }

/-- userStore.delete: removes the ghost mapping and, with it, its room
overrides (a room override never outlives its parent user). -/
def userStoreDelete (st : UserStore) (pid : Nat) (uid : String) : UserStore :=
  { entries := st.entries.filter (fun e => !(e.puppetId == pid && e.userId == uid))
    overrides := st.overrides.filter (fun o => !(o.puppetId == pid && o.userId == uid)) }

/- ## Room synchronization engine: RoomSyncroniser
   (src/src/db/schema/v10.ts, second document, lines 78-539). -/

/-- First-character test, modelling the source check of the form
mxid[0] === some character (false on the empty string, whose index read
yields undefined). -/
def firstCharIs (s : String) (c : Char) : Bool :=
  match s.data with
  | [] => false
  | x :: _ => x == c


/-- The identity-preserving hook-override rule of getMxid lines 144-153:
consult the optional createRoom hook; the returned data replaces the
request only when present and preserving (puppetId, roomId), otherwise the
original data is kept (with a warning). -/
def effectiveCreateData (hook : Option (RemoteRoom → Option RemoteRoom)) (data : RemoteRoom) : RemoteRoom :=
  match hook with
  | none => data
  | some h =>
    match h data with
    | none => data
    | some newData =>
      if newData.puppetId == data.puppetId && newData.roomId == data.roomId then newData else data

/-- The profile of a remote room as passed to the reconciler. -/
def roomProfileOfData (d : RemoteRoom) : Profile :=
  { name := d.name, avatarUrl := d.avatarUrl }

/-- The stored profile of a room entry as passed to the reconciler. -/
def profileOfEntry (r : RoomStoreEntry) : Profile :=
  { name := r.name, avatarUrl := r.avatarUrl }

/-- roomStore.newData: a fresh mapping with empty profile. -/
def newRoomData (mxid rid : String) (pid : Nat) : RoomStoreEntry :=
  { mxid := mxid, roomId := rid, puppetId := pid
    name := none, avatarUrl := none, avatarMxc := none, topic := none, groupId := none }

/-- Object.assign(room, updateProfile): copy the fields present in the
diff over the entry. -/
def applyRoomUpdate (r : RoomStoreEntry) (u : ProfileUpdate) : RoomStoreEntry :=
  { r with
    name := match u.name with
      | some n => some n
      | none => r.name
    avatarUrl := match u.avatarUrl with
      | some a => some a
      | none => r.avatarUrl
    avatarMxc := match u.avatarMxc with
      | some a => some a
      | none => r.avatarMxc }

/-- The entry persisted by the creation path (lines 201-209): newData plus
the computed profile, plus topic and group id when truthy. -/
def buildCreatedEntry (mxid : String) (d : RemoteRoom) (u : ProfileUpdate) : RoomStoreEntry :=
  let r1 := applyRoomUpdate (newRoomData mxid d.roomId d.puppetId) u
  let r2 := if strTruthy d.topic then { r1 with topic := d.topic } else r1
  if strTruthy d.groupId then { r2 with groupId := d.groupId } else r2

/-- The topic-change test of the update path (line 246): topic given
(not undefined or null) and different from the stored one. -/
def topicChangedB (d : RemoteRoom) (r : RoomStoreEntry) : Bool :=
  match d.topic with
  | none => false
  | some t => !(r.topic == some t)

/-- The group-change test of the update path (line 257). -/
def groupChangedB (d : RemoteRoom) (r : RoomStoreEntry) : Bool :=
  match d.groupId with
  | none => false
  | some g => !(r.groupId == some g)

/-- The alias suffix derived for a non-direct room (line 181). -/
def aliasSuffix (pid : Nat) (rid : String) : String :=
  toString pid ++ "_" ++ str2mxid rid

/-- The creation parameters handed to client.createRoom, restricted to the
fields the source computes from its inputs. -/
structure CreateParams where
  isDirect : Bool
  invites : Option (List String)
  roomAliasName : Option String
  name : Option String
  avatarMxc : Option String
  topic : Option String
  deriving DecidableEq, Repr

/-- Calls getMxid issues to the transport collaborator and to
persistence. -/
inductive ROp
  | createRoom (params : CreateParams)
  | setRoomOp (mxid uid : String)
  | sendState (mxid typ : String)
  | roomStoreSet (e : RoomStoreEntry)
  deriving DecidableEq, Repr

/-- Environment of the room engine: the optional createRoom hook, the room
name template, the reconciler fingerprint and upload oracles, the mxid the
transport returns for a room creation, the creating client user id, and
the appservice alias localpart helper.  The optional createRoom hook is
passed separately to getMxid. -/
structure RoomEnv where
  pattern : String
  fp : String → String
  upl : String → String
  freshMxid : String
  clientUserId : String
  aliasLocalpart : String → String

/-- Result of a getMxid call: returned pair, final store, issued calls. -/
structure GetMxidOut where
  mxid : String
  created : Bool
  store : RoomStore
  ops : List ROp
  deriving Repr

namespace RoomSyncroniser

/-- RoomSyncroniser.getMxid (lines 114-297), single-call view (the keyed
lock is acquired before the store read and released on every exit path of
this function; it is modelled separately for the concurrent claim).  No
mapping and doCreate false returns not-created with no side effects; no
mapping and doCreate true runs the hook-override rule, computes the
initial profile through the reconciler, creates the room (with the alias
for non-direct rooms), records the creating account as operator, and
persists the assembled entry; with a mapping, it recomputes the diff,
issues only the changed state writes, and persists only when something
changed.  The deferred group-sync work after lock release is outside the
modelled core (spec section 1 scopes group synchronization out). -/
def getMxid (hook : Option (RemoteRoom → Option RemoteRoom)) (env : RoomEnv)
    (st : RoomStore) (data : RemoteRoom)
    (invites : Option (List String)) (doCreate : Bool) : GetMxidOut :=
  match getByRemote st data.puppetId data.roomId with
  | none =>
    if doCreate then
      let d := effectiveCreateData hook data
      let u := processProfileUpdate env.fp env.upl env.pattern none (roomProfileOfData d)
      let params : CreateParams :=
        { isDirect := d.isDirect
          invites := invites
          roomAliasName :=
            if d.isDirect then none
            else some (env.aliasLocalpart (aliasSuffix d.puppetId d.roomId))
          name := u.name
          avatarMxc := u.avatarMxc
          topic := if strTruthy d.topic then d.topic else none }
      let mxid := env.freshMxid
      let entry := buildCreatedEntry mxid d u
      { mxid := mxid
        created := true
        store := roomStoreSet (setRoomOpStore st mxid env.clientUserId) entry
        ops := [ROp.createRoom params, ROp.setRoomOp mxid env.clientUserId, ROp.roomStoreSet entry] }
    else { mxid := "", created := false, store := st, ops := [] }
  | some room0 =>
    let u := processProfileUpdate env.fp env.upl env.pattern (some (profileOfEntry room0)) (roomProfileOfData data)
    let room1 := applyRoomUpdate room0 u
    let tc := topicChangedB data room0
    let room2 := if tc then { room1 with topic := data.topic } else room1
    let gc := groupChangedB data room0
    let room3 := if gc then { room2 with groupId := data.groupId } else room2
    let doUpdate := u.name.isSome || u.avatarMxc.isSome || tc || gc
    { mxid := room0.mxid
      created := false
      store := if doUpdate then roomStoreSet st room3 else st
      ops :=
        (if u.name.isSome then [ROp.sendState room0.mxid "m.room.name"] else []) ++
        (if u.avatarMxc.isSome then [ROp.sendState room0.mxid "m.room.avatar"] else []) ++
        (if tc then [ROp.sendState room0.mxid "m.room.topic"] else []) ++
        (if doUpdate then [ROp.roomStoreSet room3] else []) }

/-- RoomSyncroniser.getPartsFromMxid (lines 386-416): an id starting with
an exclamation mark resolves through the stored mapping; anything else is
stripped to its alias suffix by the appservice helper (an external
collaborator, passed as an oracle) and parsed against the digits,
underscore, rest pattern, unescaping the room id. -/
def getPartsFromMxid (suffixOfAlias : String → Option String) (st : RoomStore)
    (mxid : String) : Option (Nat × String) :=
  if firstCharIs mxid '!' then
    match getByMxid st mxid with
    | none => none
    | some room => some (room.puppetId, room.roomId)
  else
    match suffixOfAlias mxid with
    | none => none
    | some suffix =>
      match parseSuffix suffix with
      | none => none
      | some (pid, rest) => some (pid, mxid2str rest)

end RoomSyncroniser

/- ## User synchronization engine: UserSyncroniser
   (src/unnamed/part_000, lines 30-306). -/

/-- A matrix client as the user engine hands it out: either the puppeted
account itself (double-puppeting) or a namespaced ghost intent client. -/
inductive Client
  | puppet (id : Nat)
  | ghost (suffix : String)
  deriving DecidableEq, Repr

/-- The ghost intent suffix for a remote user (line 68 and line 117). -/
def ghostSuffix (pid : Nat) (uid : String) : String :=
  toString pid ++ "_" ++ str2mxid uid

/-- The identity-preserving hook-override rule of getClient lines 103-112,
same shape as the room rule. -/
def effectiveCreateUserData (hook : Option (RemoteUser → Option RemoteUser)) (data : RemoteUser) : RemoteUser :=
  match hook with
  | none => data
  | some h =>
    match h data with
    | none => data
    | some newData =>
      if newData.userId == data.userId && newData.puppetId == data.puppetId then newData else data

/-- The profile of a remote user as passed to the reconciler. -/
def userProfileOfData (d : RemoteUser) : Profile :=
  { name := d.name, avatarUrl := d.avatarUrl }

/-- The stored profile of a ghost entry as passed to the reconciler. -/
def profileOfUser (u : UserStoreEntry) : Profile :=
  { name := u.name, avatarUrl := u.avatarUrl }

/-- The stored profile of a room override entry. -/
def profileOfOverride (o : RoomOverrideEntry) : Profile :=
  { name := o.name, avatarUrl := o.avatarUrl }

/-- userStore.newData: fresh ghost mapping with empty profile. -/
def newUserData (pid : Nat) (uid : String) : UserStoreEntry :=
  { puppetId := pid, userId := uid, name := none, avatarUrl := none, avatarMxc := none }

/-- userStore.newRoomOverrideData. -/
def newRoomOverrideData (pid : Nat) (uid rid : String) : RoomOverrideEntry :=
  { puppetId := pid, userId := uid, roomId := rid, name := none, avatarUrl := none, avatarMxc := none }

/-- Object.assign(user, updateProfile) for ghost entries. -/
def applyUserUpdate (e : UserStoreEntry) (u : ProfileUpdate) : UserStoreEntry :=
  { e with
    name := match u.name with
      | some n => some n
      | none => e.name
    avatarUrl := match u.avatarUrl with
      | some a => some a
      | none => e.avatarUrl
    avatarMxc := match u.avatarMxc with
      | some a => some a
      | none => e.avatarMxc }

/-- Object.assign(user, newRoomOverride) for override entries. -/
def applyOverrideUpdate (e : RoomOverrideEntry) (u : ProfileUpdate) : RoomOverrideEntry :=
  { e with
    name := match u.name with
      | some n => some n
      | none => e.name
    avatarUrl := match u.avatarUrl with
      | some a => some a
      | none => e.avatarUrl
    avatarMxc := match u.avatarMxc with
      | some a => some a
      | none => e.avatarMxc }

/-- Environment of the user engine: provisioner data (the remote user id
linked to a puppet), the validated token client obtained through
provisioner.getToken plus getClientFromTokenCallback (none models both a
missing token and a token whose client fails its getUserId probe, which
getClientFromTokenCallback catches and maps to null), the name templates
(the optional createUser hook is passed separately to getClient), the reconciler oracles, the room
engine lookup used by setRoomOverride, and the membership state write
which can fail. -/
structure UserEnv where
  puppetUserId : Nat → Option String
  puppetClient : Nat → Option Client
  pattern : String
  patternOverride : String
  fp : String → String
  upl : String → String
  roomMxid : Nat → String → Option String
  sendMember : String → Except MatrixError Unit

/-- Calls the user engine issues to the transport collaborator and to
persistence. -/
inductive UOp
  | ensureRegistered (suffix : String)
  | setDisplayName (n : String)
  | setAvatarUrl (a : String)
  | userStoreSet (e : UserStoreEntry)
  | sendMember (roomMxid : String) (displayname avatar : Option String)
  | overrideStoreSet (o : RoomOverrideEntry)
  deriving DecidableEq, Repr

/-- The user-engine calls that write state through the transport or write
to persistence; only the idempotent ghost registration is not a write. -/
def isUserWrite : UOp → Bool
  | UOp.ensureRegistered _ => false
  | _ => true

namespace UserSyncroniser

/-- UserSyncroniser.maybeGetClient (lines 54-72): when the remote user
matches a configured puppet, try that account's own client; when it is
unusable, fall through to the ghost path, which returns the registered
ghost client only for an already-persisted ghost mapping and null
otherwise. -/
def maybeGetClient (env : UserEnv) (st : UserStore) (data : RemoteUser) : Option Client :=
  let ghostPath : Option Client :=
    match findUser st data.puppetId data.userId with
    | none => none
    | some _ => some (Client.ghost (ghostSuffix data.puppetId data.userId))
  if env.puppetUserId data.puppetId == some data.userId then
    match env.puppetClient data.puppetId with
    | some c => some c
    | none => ghostPath
  else ghostPath

/-- UserSyncroniser.setRoomOverride (lines 224-267): resolve the client,
the original user data and the override data through the given arguments
with store fallbacks, resolve the room mapping, and issue one membership
state write carrying override fields coalesced with the global profile;
every missing piece is a logged no-op, and only the state write itself can
fail. -/
def setRoomOverride (env : UserEnv) (st : UserStore) (userData : RemoteUser) (roomId : String)
    (roomOverrideData : Option RoomOverrideEntry) (client : Option Client)
    (origUserData : Option UserStoreEntry) : Except MatrixError (List UOp) :=
  let client2 :=
    match client with
    | some c => some c
    | none => maybeGetClient env st userData
  match client2 with
  | none => Except.ok []
  | some _ =>
    let orig :=
      match origUserData with
      | some o => some o
      | none => findUser st userData.puppetId userData.userId
    match orig with
    | none => Except.ok []
    | some origU =>
      let ovd :=
        match roomOverrideData with
        | some o => some o
        | none => findOverride st userData.puppetId userData.userId roomId
      match ovd with
      | none => Except.ok []
      | some ov =>
        match env.roomMxid userData.puppetId roomId with
        | none => Except.ok []
        | some roomMxid =>
          match env.sendMember roomMxid with
          | Except.error e => Except.error e
          | Except.ok _ =>
            Except.ok [UOp.sendMember roomMxid (strOr ov.name origU.name) (strOr ov.avatarMxc origU.avatarMxc)]

/-- The M_FORBIDDEN test of updateRoomOverride line 295: the source reads
err.body.errcode, so an absent body (whose read itself throws) and any
other errcode both leave the inner catch through a raise. -/
def errForbidden (e : MatrixError) : Bool :=
  match e.body with
  | none => false
  | some b => b.errcode == some "M_FORBIDDEN"

/-- Body of UserSyncroniser.updateRoomOverride (lines 276-301), the part
inside the outer try: diff the stored override against the observed one,
and when something changed apply it via setRoomOverride, swallowing only a
permission-denied failure, then persist the override; a non-forbidden
failure of the state write re-raises before the persistence write. -/
def updateRoomOverrideBody (env : UserEnv) (st : UserStore) (client : Client)
    (userData : RemoteUser) (roomId : String) (roomOverride : Profile)
    (origUserData : Option UserStoreEntry) : Except MatrixError (UserStore × List UOp) :=
  let u0 := findOverride st userData.puppetId userData.userId roomId
  let upd := processProfileUpdate env.fp env.upl env.patternOverride (u0.map profileOfOverride) roomOverride
  let u1 :=
    match u0 with
    | some x => x
    | none => newRoomOverrideData userData.puppetId userData.userId roomId
  let u2 := applyOverrideUpdate u1 upd
  if upd.name.isSome || upd.avatarMxc.isSome then
    match setRoomOverride env st userData roomId (some u2) (some client) origUserData with
    | Except.ok ops => Except.ok (overrideStoreSetF st u2, ops ++ [UOp.overrideStoreSet u2])
    | Except.error e =>
      if errForbidden e then Except.ok (overrideStoreSetF st u2, [UOp.overrideStoreSet u2])
      else Except.error e
  else Except.ok (st, [])

/-- UserSyncroniser.updateRoomOverride (lines 269-305): the body wrapped
in the outer try whose catch logs the error and returns normally, so no
failure inside the body ever reaches the caller. -/
def updateRoomOverride (env : UserEnv) (st : UserStore) (client : Client)
    (userData : RemoteUser) (roomId : String) (roomOverride : Profile)
    (origUserData : Option UserStoreEntry) : Except MatrixError (UserStore × List UOp) :=
  match updateRoomOverrideBody env st client userData roomId roomOverride origUserData with
  | Except.ok x => Except.ok x
  | Except.error _ => Except.ok (st, [])

/-- One background override update dispatched by getClient (line 165):
apply the override supplied with the request; updateRoomOverride never
raises, so the error arm is unreachable. -/
def bgOverrideStep (env : UserEnv) (client : Client) (d : RemoteUser) (user2 : UserStoreEntry)
    (acc : UserStore × List UOp) (p : String × Profile) : UserStore × List UOp :=
  match updateRoomOverride env acc.fst client d p.fst p.snd (some user2) with
  | Except.ok x => (x.fst, acc.snd ++ x.snd)
  | Except.error _ => acc

/-- One background override reapplication dispatched by getClient
(line 179), skipping the rooms already updated; it is a floating promise
in the source, so a failure is only logged. -/
def bgReapplyStep (env : UserEnv) (client : Client) (d : RemoteUser) (user2 : UserStoreEntry)
    (skip : List String) (acc : UserStore × List UOp) (ro : RoomOverrideEntry) : UserStore × List UOp :=
  if skip.contains ro.roomId then acc
  else
    match setRoomOverride env acc.fst d ro.roomId (some ro) (some client) (some user2) with
    | Except.ok opsx => (acc.fst, acc.snd ++ opsx)
    | Except.error _ => acc

/-- Result of a getClient call. -/
structure GetClientOut where
  client : Client
  store : UserStore
  ops : List UOp
  deriving Repr

/-- The ghost path of getClient (lines 91-190): on first sight apply the
hook-override rule and start from a fresh entry, otherwise diff against
the stored profile; register the ghost intent; issue display-name and
avatar writes only for changed fields; persist only when something
changed; then the background continuation (dispatched after the lock
releases; modelled sequentially here) updates the overrides supplied with
the request and, only when the global profile changed, reapplies the
remaining stored overrides.  The background block swallows every failure
(its errors are only logged), so this function is total. -/
def getClientGhost (hook : Option (RemoteUser → Option RemoteUser)) (env : UserEnv)
    (st : UserStore) (data : RemoteUser) : GetClientOut :=
  let user0 := findUser st data.puppetId data.userId
  let d :=
    match user0 with
    | none => effectiveCreateUserData hook data
    | some _ => data
  let user1 :=
    match user0 with
    | none => newUserData d.puppetId d.userId
    | some u => u
  let doUpdate0 := user0.isNone
  let oldProfile := user0.map profileOfUser
  let suffix := ghostSuffix d.puppetId d.userId
  let upd := processProfileUpdate env.fp env.upl env.pattern oldProfile (userProfileOfData d)
  let user2 := applyUserUpdate user1 upd
  let nameWrite := upd.name.isSome
  let avatarWrite := upd.avatarMxc.isSome
  let fgOps :=
    [UOp.ensureRegistered suffix] ++
    (if nameWrite then [UOp.setDisplayName (valOrEmpty user2.name)] else []) ++
    (if avatarWrite then [UOp.setAvatarUrl (valOrEmpty user2.avatarMxc)] else [])
  let doUpdate := doUpdate0 || nameWrite || avatarWrite
  let st1 := if doUpdate then userStoreSetF st user2 else st
  let dbOps := if doUpdate then [UOp.userStoreSet user2] else []
  let stOps2 := d.roomOverrides.foldl (bgOverrideStep env (Client.ghost suffix) d user2) (st1, ([] : List UOp))
  let roomIdsNotToUpdate := d.roomOverrides.map Prod.fst
  let stOps3 :=
    if nameWrite || avatarWrite then
      (getAllRoomOverrides stOps2.fst d.puppetId d.userId).foldl
        (bgReapplyStep env (Client.ghost suffix) d user2 roomIdsNotToUpdate) stOps2
    else stOps2
  { client := Client.ghost suffix, store := stOps3.fst, ops := fgOps ++ dbOps ++ stOps3.snd }

/-- UserSyncroniser.getClient (lines 80-191): when the remote user matches
a configured puppet and a usable authenticated client exists, return it
directly with no ghost work; otherwise the ghost path. -/
def getClient (hook : Option (RemoteUser → Option RemoteUser)) (env : UserEnv)
    (st : UserStore) (data : RemoteUser) : GetClientOut :=
  if env.puppetUserId data.puppetId == some data.userId then
    match env.puppetClient data.puppetId with
    | some c => { client := c, store := st, ops := [] }
    | none => getClientGhost hook env st data
  else getClientGhost hook env st data

/-- UserSyncroniser.getPartsFromMxid (lines 193-213): strip the user id to
its namespace suffix (appservice helper as oracle) and parse the digits,
underscore, rest pattern, unescaping the user id. -/
def getPartsFromMxid (suffixOfUserId : String → Option String) (mxid : String) : Option (Nat × String) :=
  match suffixOfUserId mxid with
  | none => none
  | some suffix =>
    match parseSuffix suffix with
    | none => none
    | some (pid, rest) => some (pid, mxid2str rest)

/-- UserSyncroniser.deleteForMxid (lines 215-222): parse the ghost mxid
and delete its store entry; unparsable ids are a no-op. -/
def deleteForMxid (suffixOfUserId : String → Option String) (st : UserStore) (mxid : String) : UserStore :=
  match getPartsFromMxid suffixOfUserId mxid with
  | none => st
  | some (pid, uid) => userStoreDelete st pid uid

end UserSyncroniser

/- ## Ghost membership, operator succession and room deletion
   (RoomSyncroniser.maybeLeaveGhost lines 418-459 and
   delete / deleteForMxid / deleteForPuppet / deleteEntries lines
   461-538). -/

/-- Combined persistence for those operations: the room store, the user
store, and the puppet store ghost-membership map (room mxid to the ghosts
joined there). -/
structure Stores where
  rooms : RoomStore
  users : UserStore
  ghostRooms : List (String × List String)
  deriving DecidableEq, Repr

/-- puppetStore.getGhostsInRoom. -/
def ghostsInRoom (st : Stores) (room : String) : List String :=
  match st.ghostRooms.find? (fun p => p.fst == room) with
  | none => []
  | some p => p.snd

/-- puppetStore.leaveGhostFromRoom. -/
def leaveGhostFromRoom (st : Stores) (user room : String) : Stores :=
  { st with ghostRooms :=
      st.ghostRooms.map (fun p => if p.fst == room then (p.fst, p.snd.filter (fun g => g != user)) else p) }

/-- puppetStore.emptyGhostsInRoom. -/
def emptyGhostsInRoom (st : Stores) (room : String) : Stores :=
  { st with ghostRooms :=
      st.ghostRooms.map (fun p => if p.fst == room then (p.fst, []) else p) }

/-- The m.room.power_levels content, restricted to the users map the
source touches. -/
structure PowerLevels where
  users : List (String × Int)
  deriving DecidableEq, Repr

/-- Transport oracles of maybeLeaveGhost: reading and writing the power
levels (both can fail) and the ghost intent leave call. -/
structure LeaveEnv where
  getPowerLevels : String → Except MatrixError PowerLevels
  sendPowerLevels : String → PowerLevels → Except MatrixError Unit
  leaveRoom : String → String → Except MatrixError Unit

/-- Calls maybeLeaveGhost issues, in order. -/
inductive LOp
  | powerGet (room : String)
  | powerSend (room : String)
  | setRoomOp (room newOp : String)
  | leave (user room : String)
  | ghostStoreLeave (user room : String)
  deriving DecidableEq, Repr

/-- The power-level handoff of lines 446-448:
powerLevels.users[newOp] = powerLevels.users[oldOp].  When the departing
operator has no entry, the JavaScript assignment stores undefined, which
the serialized event drops; modelled as leaving the map unchanged. -/
def assignPower (pl : PowerLevels) (newOp oldOp : String) : PowerLevels :=
  match pl.users.find? (fun p => p.fst == oldOp) with
  | none => pl
  | some p => { users := (newOp, p.snd) :: pl.users.filter (fun q => q.fst != newOp) }

/-- The leave tail of maybeLeaveGhost (lines 457-458): the intent leave
call (whose failure propagates) followed by the ghost-membership
persistence update. -/
def leaveTail (env : LeaveEnv) (st : Stores) (roomMxid userMxid : String)
    (ops0 : List LOp) : Except MatrixError (Stores × List LOp) :=
  match env.leaveRoom userMxid roomMxid with
  | Except.error e => Except.error e
  | Except.ok _ =>
    Except.ok (leaveGhostFromRoom st userMxid roomMxid,
      ops0 ++ [LOp.leave userMxid roomMxid, LOp.ghostStoreLeave userMxid roomMxid])

/-- RoomSyncroniser.maybeLeaveGhost (lines 418-459): a no-op when the
ghost is not in the room or is the only ghost there; when the departing
ghost is the stored room operator, find another present ghost (abort when
none), hand the power level over, persist the new operator, and only then
leave; any failure while handing over is caught, logged and aborts the
leave. -/
def maybeLeaveGhost (env : LeaveEnv) (st : Stores) (roomMxid userMxid : String) :
    Except MatrixError (Stores × List LOp) :=
  let ghosts := ghostsInRoom st roomMxid
  if ¬ ghosts.contains userMxid then Except.ok (st, [])
  else if ghosts.length == 1 then Except.ok (st, [])
  else
    let oldOp := getRoomOpStore st.rooms roomMxid
    if oldOp == some userMxid then
      match ghosts.find? (fun g => g != userMxid) with
      | none => Except.ok (st, [])
      | some newOp =>
        match env.getPowerLevels roomMxid with
        | Except.error _ => Except.ok (st, [LOp.powerGet roomMxid])
        | Except.ok pl =>
          match env.sendPowerLevels roomMxid (assignPower pl newOp userMxid) with
          | Except.error _ => Except.ok (st, [LOp.powerGet roomMxid, LOp.powerSend roomMxid])
          | Except.ok _ =>
            leaveTail env { st with rooms := setRoomOpStore st.rooms roomMxid newOp }
              roomMxid userMxid
              [LOp.powerGet roomMxid, LOp.powerSend roomMxid, LOp.setRoomOp roomMxid newOp]
    else leaveTail env st roomMxid userMxid []

/-- Oracles of the deletion path: the wrapped alias cleanup calls, the
bot joined-rooms query (the one transport read in deleteEntries that is
not inside a try, so its failure propagates), the wrapped bot and ghost
leave calls, and the appservice user-suffix helper used by the ghost
deletion. -/
structure DeleteEnv where
  aliasClear : String → Except MatrixError Unit
  getAliases : String → Except MatrixError (List String)
  deleteAlias : String → Except MatrixError Unit
  getJoinedRooms : Except MatrixError (List String)
  botLeave : String → Except MatrixError Unit
  ghostLeave : String → String → Except MatrixError Unit
  suffixOfUserId : String → Option String

/-- Calls attempted by the deletion path; the Tried entries record calls
whose failures the source catches and logs. -/
inductive DOp
  | aliasClearTried (room : String)
  | aliasDeleteTried (a : String)
  | roomDeleted (pid : Nat) (rid : String)
  | botLeaveTried (room : String)
  | userDeleted (ghost : String)
  | ghostLeaveTried (ghost room : String)
  | ghostsEmptied (room : String)
  deriving DecidableEq, Repr

/-- The alias deletion loop (lines 496-498): both the aliases fetch and
each deletion sit inside the inner try, so the first failing deletion ends
the loop and is swallowed. -/
def deleteAliasLoop (env : DeleteEnv) : List String → List DOp
  | [] => []
  | a :: rest =>
    match env.deleteAlias a with
    | Except.error _ => [DOp.aliasDeleteTried a]
    | Except.ok _ => DOp.aliasDeleteTried a :: deleteAliasLoop env rest

/-- The alias cleanup block (lines 489-504), entered only with an operator
client: clearing the canonical alias and removing the fetched aliases,
with every failure caught and logged. -/
def aliasCleanupOps (env : DeleteEnv) (room : String) : List DOp :=
  match env.aliasClear room with
  | Except.error _ => [DOp.aliasClearTried room]
  | Except.ok _ =>
    match env.getAliases room with
    | Except.error _ => [DOp.aliasClearTried room]
    | Except.ok aliases => DOp.aliasClearTried room :: deleteAliasLoop env aliases

/-- One room of RoomSyncroniser.deleteEntries (lines 484-537): the alias
cleanup (every failure caught and logged), then the unconditional store
delete, then the bot departure (the joined-rooms query is the one
transport read not inside a try, so its failure aborts; the leave itself
is wrapped), then per ghost the user deletion (unless keepUsers) and the
wrapped leave, and finally the ghost-membership reset. -/
def deleteEntryStep (env : DeleteEnv) (keepUsers : Bool) (st : Stores) (e : RoomStoreEntry) :
    Except MatrixError (Stores × List DOp) :=
  let ops0 :=
    match getRoomOpStore st.rooms e.mxid with
    | none => []
    | some _ => aliasCleanupOps env e.mxid
  let st1 : Stores := { st with rooms := roomStoreDelete st.rooms e }
  let ops1 := ops0 ++ [DOp.roomDeleted e.puppetId e.roomId]
  match env.getJoinedRooms with
  | Except.error err => Except.error err
  | Except.ok joined =>
    let ops2 := ops1 ++ (if joined.contains e.mxid then [DOp.botLeaveTried e.mxid] else [])
    let ghosts := ghostsInRoom st1 e.mxid
    let st2 :=
      if keepUsers then st1
      else ghosts.foldl
        (fun acc g => { acc with users := UserSyncroniser.deleteForMxid env.suffixOfUserId acc.users g })
        st1
    let ops3 := ops2 ++ ghosts.flatMap
      (fun g => (if keepUsers then [] else [DOp.userDeleted g]) ++ [DOp.ghostLeaveTried g e.mxid])
    Except.ok (emptyGhostsInRoom st2 e.mxid, ops3 ++ [DOp.ghostsEmptied e.mxid])

/-- RoomSyncroniser.deleteEntries (lines 482-538) over a list of
entries, accumulating the attempted calls. -/
def deleteEntries (env : DeleteEnv) (keepUsers : Bool) : Stores → List DOp → List RoomStoreEntry → Except MatrixError (Stores × List DOp)
  | st, ops, [] => Except.ok (st, ops)
  | st, ops, e :: rest =>
    match deleteEntryStep env keepUsers st e with
    | Except.error err => Except.error err
    | Except.ok (st2, ops2) => deleteEntries env keepUsers st2 (ops ++ ops2) rest

/-- roomStore.getByPuppetId. -/
def getByPuppetId (st : Stores) (pid : Nat) : List RoomStoreEntry :=
  st.rooms.entries.filter (fun e => e.puppetId == pid)

/-- RoomSyncroniser.deleteForPuppet (lines 477-480). -/
def deleteForPuppet (env : DeleteEnv) (st : Stores) (pid : Nat) : Except MatrixError (Stores × List DOp) :=
  deleteEntries env false st [] (getByPuppetId st pid)

/- ## Concrete instances used by witnesses and counterexamples. -/

/-- The empty user store. -/
def emptyUserStore : UserStore := { entries := [], overrides := [] }

/-- A stored room mapping used by witnesses. -/
def roomEntryW : RoomStoreEntry :=
  { mxid := "!abc:example.org", roomId := "chan1", puppetId := 3
    name := none, avatarUrl := none, avatarMxc := none, topic := none, groupId := none }

/-- A room store holding only roomEntryW. -/
def roomStoreW : RoomStore := { entries := [roomEntryW], roomOps := [] }

/-- A concrete alias-suffix oracle: one well-formed bridge alias and one
alias whose suffix does not match the digits-underscore-rest pattern. -/
def sfxW : String → Option String := fun a =>
  if a = "#_myprefix_7_a2b3:example.org" then some "7_a2b3"
  else if a = "#_myprefix_bad:example.org" then some "bad"
  else none

/-- Combined stores used by the maybeLeaveGhost witness: the room
!r:hs holds ghosts g1 and g2 and its stored operator is g1. -/
def storesW : Stores :=
  { rooms := { entries := [], roomOps := [("!r:hs", "@g1:hs")] }
    users := emptyUserStore
    ghostRooms := [("!r:hs", ["@g1:hs", "@g2:hs"])] }

/-- Transport oracles for the maybeLeaveGhost witness: every call
succeeds; the power levels give g1 level 100. -/
def leaveEnvW : LeaveEnv :=
  { getPowerLevels := fun _ => Except.ok { users := [("@g1:hs", 100)] }
    sendPowerLevels := fun _ _ => Except.ok ()
    leaveRoom := fun _ _ => Except.ok () }

/-- Room mappings used by the deleteForPuppet witness: two rooms of
puppet 3 and one of puppet 4. -/
def delEntryA : RoomStoreEntry :=
  { mxid := "!a:hs", roomId := "r1", puppetId := 3
    name := none, avatarUrl := none, avatarMxc := none, topic := none, groupId := none }

/-- Second mapping of puppet 3. -/
def delEntryB : RoomStoreEntry :=
  { mxid := "!b:hs", roomId := "r2", puppetId := 3
    name := none, avatarUrl := none, avatarMxc := none, topic := none, groupId := none }

/-- A mapping of another puppet, which must survive. -/
def delEntryC : RoomStoreEntry :=
  { mxid := "!c:hs", roomId := "r3", puppetId := 4
    name := none, avatarUrl := none, avatarMxc := none, topic := none, groupId := none }

/-- Stores for the deleteForPuppet witness: the three mappings, an
operator for !a:hs (so the alias cleanup is entered and fails), and a
ghost in !a:hs. -/
def deleteStoresW : Stores :=
  { rooms := { entries := [delEntryA, delEntryB, delEntryC], roomOps := [("!a:hs", "@op:hs")] }
    users := emptyUserStore
    ghostRooms := [("!a:hs", ["@g1:hs"])] }

/-- Deletion oracles where every wrapped target-side cleanup call fails
and only the joined-rooms query answers. -/
def deleteEnvW : DeleteEnv :=
  { aliasClear := fun _ => Except.error { body := none }
    getAliases := fun _ => Except.error { body := none }
    deleteAlias := fun _ => Except.error { body := none }
    getJoinedRooms := Except.ok ["!a:hs"]
    botLeave := fun _ => Except.error { body := none }
    ghostLeave := fun _ _ => Except.error { body := none }
    suffixOfUserId := fun _ => none }

/-- User-engine environment whose membership state write fails with a
non-forbidden error (M_LIMIT_EXCEEDED). -/
def userEnvC8 : UserEnv :=
  { puppetUserId := fun _ => none
    puppetClient := fun _ => none
    pattern := ":name"
    patternOverride := ":name"
    fp := fun s => s
    upl := fun _ => "mxc://up"
    roomMxid := fun _ _ => some "!room:hs"
    sendMember := fun _ => Except.error { body := some { errcode := some "M_LIMIT_EXCEEDED" } } }

/-- The same environment but failing with M_FORBIDDEN. -/
def userEnvC8F : UserEnv :=
  { userEnvC8 with sendMember := fun _ => Except.error { body := some { errcode := some "M_FORBIDDEN" } } }

/-- A remote user with no overrides attached to the request. -/
def userC8 : RemoteUser :=
  { puppetId := 1, userId := "alice", name := none, avatarUrl := none, roomOverrides := [] }

/-- The original user data passed to updateRoomOverride. -/
def origC8 : UserStoreEntry := newUserData 1 "alice"

/-- An observed override that changes the name. -/
def ovC8 : Profile := { name := some "nick", avatarUrl := none }

/-- User-engine environment where puppet 1 is configured for remote user
alice but no usable authenticated client can be obtained from the stored
token. -/
def userEnvC10 : UserEnv :=
  { puppetUserId := fun p => if p == 1 then some "alice" else none
    puppetClient := fun _ => none
    pattern := ":name"
    patternOverride := ":name"
    fp := fun s => s
    upl := fun _ => "mxc://a"
    roomMxid := fun _ _ => none
    sendMember := fun _ => Except.ok () }

/-- The matching remote user for the double-puppeting scenario. -/
def userC10 : RemoteUser :=
  { puppetId := 1, userId := "alice", name := none, avatarUrl := none, roomOverrides := [] }

/-- A user store already holding the ghost mapping of (1, alice). -/
def userStoreC10 : UserStore := { entries := [newUserData 1 "alice"], overrides := [] }

/-- The empty room store. -/
def emptyRoomStore : RoomStore := { entries := [], roomOps := [] }

/-- Room-engine environment for witnesses. -/
def roomEnvW : RoomEnv :=
  { pattern := ":name"
    fp := fun s => s
    upl := fun _ => "mxc://av"
    freshMxid := "!new:hs"
    clientUserId := "@bot:hs"
    aliasLocalpart := fun s => "_myprefix_" ++ s }

/-- A remote room used by the hook witnesses. -/
def dataRoomW : RemoteRoom :=
  { puppetId := 3, roomId := "chan1", isDirect := false
    name := some "General", avatarUrl := none, topic := none, groupId := none }

/-- A pair-preserving createRoom hook. -/
def hookRoomW : RemoteRoom → Option RemoteRoom := fun r => some { r with name := some "hooked" }

/-- A malformed createRoom hook that rewrites the room id. -/
def hookRoomBad : RemoteRoom → Option RemoteRoom := fun r => some { r with roomId := "other" }

/-- A pair-preserving createUser hook. -/
def hookUserW : RemoteUser → Option RemoteUser := fun u => some { u with name := some "hooked" }

/-- A remote user used by the hook witness. -/
def dataUserW : RemoteUser :=
  { puppetId := 1, userId := "alice", name := some "Alice", avatarUrl := none, roomOverrides := [] }

/-- The stored mapping of the zero-write room witness: its profile equals
the observed one. -/
def c7RoomEntry : RoomStoreEntry :=
  { mxid := "!abc:example.org", roomId := "chan1", puppetId := 3
    name := some "General", avatarUrl := some "http://av", avatarMxc := some "mxc://av"
    topic := some "t", groupId := none }

/-- The room store for the zero-write witness. -/
def c7RoomStore : RoomStore := { entries := [c7RoomEntry], roomOps := [] }

/-- Observed room data matching the stored profile. -/
def c7RoomData : RemoteRoom :=
  { puppetId := 3, roomId := "chan1", isDirect := false
    name := some "General", avatarUrl := some "http://av", topic := some "t", groupId := none }

/-- The stored ghost of the zero-write user witness. -/
def c7UserEntry : UserStoreEntry :=
  { puppetId := 1, userId := "alice", name := some "Alice", avatarUrl := none, avatarMxc := none }

/-- The stored room override of the zero-write user witness. -/
def c7Override : RoomOverrideEntry :=
  { puppetId := 1, userId := "alice", roomId := "chan1"
    name := some "Nick", avatarUrl := none, avatarMxc := none }

/-- The user store for the zero-write witness. -/
def c7UserStore : UserStore := { entries := [c7UserEntry], overrides := [c7Override] }

/-- Observed user data matching the stored profile, carrying an override
whose diff is also empty. -/
def c7UserData : RemoteUser :=
  { puppetId := 1, userId := "alice", name := some "Alice", avatarUrl := none
    roomOverrides := [("chan1", { name := some "Nick", avatarUrl := none })] }

/- ## Concurrent getMxid: a small-step machine for claim C1.

   Spec section 5: reconciliation requests run as tasks over a cooperative
   scheduler; suspension occurs exactly at calls into a collaborator
   (transport, persistence, lock wait), and between suspensions a step
   runs uninterrupted.  Each TaskPc constructor below is one suspension
   point of getMxid (v10.ts second document, lines 114-297); a taskStep
   fires the code between one suspension and the next atomically.  The
   keyed lock (structures/lock.ts is not part of src/) is modelled from
   the spec: wait suspends the caller until no holder is registered for
   the key, and the following set registers the caller before the next
   suspension, so passing wait and taking the lock is one atomic step;
   the bounded-timeout safety release is not modelled (spec section 5:
   never a correctness mechanism callers may rely on).  Both tasks run
   getMxid on the same (puppetId, roomId), so one lock key, one store
   slot and one operator slot suffice.  The deferred group-sync work
   after release is outside the modelled core (spec section 1). -/

/-- Environment of the concurrent model; freshMxid gives the room id the
transport returns for the n-th creation call, so two creations would
yield distinct ids. -/
structure C1Env where
  doCreate : Bool
  hook : Option (RemoteRoom → Option RemoteRoom)
  pattern : String
  fp : String → String
  upl : String → String
  freshMxid : Nat → String
  clientUserId : String

/-- Shared state of the two tasks: the lock of the single key, the store
slot of the single mapping, the operator slot, and the number of
creation calls that reached the transport. -/
structure Shared where
  lockHeld : Bool
  store : Option RoomStoreEntry
  opStore : Option String
  createCalls : Nat
  deriving DecidableEq, Repr

/-- Program counter of one getMxid task, one constructor per suspension
point: start (blocked at mxidLock.wait), readStore (getByRemote), then
the creation path (hook call, reconciler, createRoom, getUserId,
setRoomOp, roomStore.set) or the update path (getRoomOp, reconciler, the
three conditional state writes, conditional roomStore.set), and the two
terminal returns. -/
inductive TaskPc
  | start
  | readStore
  | hookStep
  | processCreate (d : RemoteRoom)
  | createCall (d : RemoteRoom) (u : ProfileUpdate)
  | getUid (d : RemoteRoom) (u : ProfileUpdate) (mxid : String)
  | opSet (d : RemoteRoom) (u : ProfileUpdate) (mxid uid : String)
  | entrySet (e : RoomStoreEntry)
  | roomOpE (r : RoomStoreEntry)
  | processE (r : RoomStoreEntry)
  | nameE (r : RoomStoreEntry) (u : ProfileUpdate)
  | avatarE (r : RoomStoreEntry) (u : ProfileUpdate)
  | topicE (r : RoomStoreEntry) (u : ProfileUpdate)
  | entrySetE (r : RoomStoreEntry) (doU : Bool)
  | doneNC
  | done (mxid : String)
  deriving DecidableEq, Repr

/-- One atomic step of a task: none when the task is blocked (at start
with the lock held) or finished.  Mirrors getMxid statement by statement;
applyRoomUpdate leaves the carried entry's topic and group untouched, so
the update-path conditions test the stored values exactly as the source
does. -/
def taskStep (env : C1Env) (data : RemoteRoom) : TaskPc → Shared → Option (TaskPc × Shared)
  | TaskPc.start, s =>
    if s.lockHeld then none
    else some (TaskPc.readStore, { s with lockHeld := true })
  | TaskPc.readStore, s =>
    match s.store with
    | none =>
      if env.doCreate then
        match env.hook with
        | some _ => some (TaskPc.hookStep, s)
        | none => some (TaskPc.processCreate data, s)
      else some (TaskPc.doneNC, { s with lockHeld := false })
    | some r => some (TaskPc.roomOpE r, s)
  | TaskPc.hookStep, s => some (TaskPc.processCreate (effectiveCreateData env.hook data), s)
  | TaskPc.processCreate d, s =>
    some (TaskPc.createCall d (processProfileUpdate env.fp env.upl env.pattern none (roomProfileOfData d)), s)
  | TaskPc.createCall d u, s =>
    some (TaskPc.getUid d u (env.freshMxid s.createCalls), { s with createCalls := s.createCalls + 1 })
  | TaskPc.getUid d u m, s => some (TaskPc.opSet d u m env.clientUserId, s)
  | TaskPc.opSet d u m uid, s =>
    some (TaskPc.entrySet (buildCreatedEntry m d u), { s with opStore := some uid })
  | TaskPc.entrySet e, s =>
    some (TaskPc.done e.mxid, { s with store := some e, lockHeld := false })
  | TaskPc.roomOpE r, s => some (TaskPc.processE r, s)
  | TaskPc.processE r, s =>
    let u := processProfileUpdate env.fp env.upl env.pattern (some (profileOfEntry r)) (roomProfileOfData data)
    some (TaskPc.nameE (applyRoomUpdate r u) u, s)
  | TaskPc.nameE r u, s => some (TaskPc.avatarE r u, s)
  | TaskPc.avatarE r u, s => some (TaskPc.topicE r u, s)
  | TaskPc.topicE r u, s =>
    let tc := topicChangedB data r
    let r2 := if tc then { r with topic := data.topic } else r
    let gc := groupChangedB data r
    let r3 := if gc then { r2 with groupId := data.groupId } else r2
    some (TaskPc.entrySetE r3 (u.name.isSome || u.avatarMxc.isSome || tc || gc), s)
  | TaskPc.entrySetE r doU, s =>
    some (TaskPc.done r.mxid, { s with store := if doU then some r else s.store, lockHeld := false })
  | TaskPc.doneNC, _ => none
  | TaskPc.done _, _ => none

/-- Configuration: the shared state and the two task counters. -/
structure C1State where
  sh : Shared
  a : TaskPc
  b : TaskPc
  deriving DecidableEq, Repr

/-- The scheduler: at each step it fires whichever task it likes among
the enabled ones. -/
inductive C1Step (env : C1Env) (data : RemoteRoom) : C1State → C1State → Prop
  | left {sh : Shared} {a b a2 : TaskPc} {sh2 : Shared} :
      taskStep env data a sh = some (a2, sh2) →
      C1Step env data ⟨sh, a, b⟩ ⟨sh2, a2, b⟩
  | right {sh : Shared} {a b b2 : TaskPc} {sh2 : Shared} :
      taskStep env data b sh = some (b2, sh2) →
      C1Step env data ⟨sh, a, b⟩ ⟨sh2, a, b2⟩

/-- Initial configuration of the C1 scenario: no prior persisted mapping,
lock free, both calls about to start. -/
def c1Init : C1State :=
  { sh := { lockHeld := false, store := none, opStore := none, createCalls := 0 }
    a := TaskPc.start
    b := TaskPc.start }

/-- Counters that hold the key's lock. -/
def inCrit : TaskPc → Bool
  | TaskPc.start => false
  | TaskPc.doneNC => false
  | TaskPc.done _ => false
  | _ => true

/-- Creation-path counters after the transport creation call and before
the store write. -/
def postCreate : TaskPc → Bool
  | TaskPc.getUid _ _ _ => true
  | TaskPc.opSet _ _ _ _ => true
  | TaskPc.entrySet _ => true
  | _ => false

/-- Per-task invariant, tying the counter to the shared store and the
creation count. -/
def pcInv : TaskPc → Shared → Prop
  | TaskPc.start, _ => True
  | TaskPc.readStore, _ => True
  | TaskPc.hookStep, s => s.store = none ∧ s.createCalls = 0
  | TaskPc.processCreate _, s => s.store = none ∧ s.createCalls = 0
  | TaskPc.createCall _ _, s => s.store = none ∧ s.createCalls = 0
  | TaskPc.getUid _ _ _, s => s.store = none ∧ s.createCalls = 1
  | TaskPc.opSet _ _ _ _, s => s.store = none ∧ s.createCalls = 1
  | TaskPc.entrySet _, s => s.store = none ∧ s.createCalls = 1
  | TaskPc.roomOpE r, s => ∃ e, s.store = some e ∧ e.mxid = r.mxid
  | TaskPc.processE r, s => ∃ e, s.store = some e ∧ e.mxid = r.mxid
  | TaskPc.nameE r _, s => ∃ e, s.store = some e ∧ e.mxid = r.mxid
  | TaskPc.avatarE r _, s => ∃ e, s.store = some e ∧ e.mxid = r.mxid
  | TaskPc.topicE r _, s => ∃ e, s.store = some e ∧ e.mxid = r.mxid
  | TaskPc.entrySetE r _, s => ∃ e, s.store = some e ∧ e.mxid = r.mxid
  | TaskPc.doneNC, _ => True
  | TaskPc.done m, s => ∃ e, s.store = some e ∧ e.mxid = m

/-- Global invariant: mutual exclusion, lock accounting, at most one
creation call, a persisted mapping implies exactly one creation, a
creation not yet persisted implies a task between the creation call and
the store write, and both per-task invariants. -/
def C1Inv (c : C1State) : Prop :=
  (¬(inCrit c.a = true ∧ inCrit c.b = true)) ∧
  c.sh.lockHeld = (inCrit c.a || inCrit c.b) ∧
  c.sh.createCalls ≤ 1 ∧
  (∀ e, c.sh.store = some e → c.sh.createCalls = 1) ∧
  (c.sh.createCalls = 1 → c.sh.store = none → postCreate c.a = true ∨ postCreate c.b = true) ∧
  pcInv c.a c.sh ∧ pcInv c.b c.sh

/-- Environment of the concurrent witness run. -/
def c1EnvW : C1Env :=
  { doCreate := true
    hook := none
    pattern := ":name"
    fp := fun s => s
    upl := fun _ => "mxc://x"
    freshMxid := fun n => "!r" ++ toString n
    clientUserId := "@bot:hs" }

/-- The entry the witness run persists. -/
def c1EntryW : RoomStoreEntry :=
  { mxid := "!r0", roomId := "chan1", puppetId := 3
    name := some "General", avatarUrl := none, avatarMxc := none, topic := none, groupId := none }

/-- The final configuration of the witness run: both callers returned
!r0, one creation call, one persisted mapping. -/
def c1FinalW : C1State :=
  { sh := { lockHeld := false, store := some c1EntryW, opStore := some "@bot:hs", createCalls := 1 }
    a := TaskPc.done "!r0"
    b := TaskPc.done "!r0" }

/- ## Theorems. -/


/-- Claim C2: a call to uploadContent with a byte buffer whose content
digest already maps to a stored reference issues no upload call to the
transport collaborator and returns the stored reference unchanged. -/
theorem uploadContent_cachedDigest_noUpload
    (env : UploadEnv) (b : Buffer) (url : String) (mimetype filename : Option String)
    (hcache : env.getFileMxc (hashBuffer b) = some url) :
    (uploadContent env (Thing.buf b) mimetype filename).ret = Except.ok url ∧
    UCOp.upload ∉ (uploadContent env (Thing.buf b) mimetype filename).ops := by
  simp [uploadContent, uploadAfterBuffer, hcache]

/-- Witness for C2 at the concrete cached buffer [1, 2]. -/
theorem uploadContent_cachedDigest_noUpload_witness :
    (uploadContent uploadEnvW (Thing.buf [1, 2]) none none).ret = Except.ok "mxc://cached" ∧
    UCOp.upload ∉ (uploadContent uploadEnvW (Thing.buf [1, 2]) none none).ops :=
  uploadContent_cachedDigest_noUpload uploadEnvW [1, 2] "mxc://cached" none none (by decide)

/-- Claim C3 (evidence of the code bug): on a digest cache hit,
uploadContent returns the cached reference but completes with the
per-digest lock still registered: the early return skips the release loop,
which only runs on the full-upload path and in the catch.  The lock-guarded
operation therefore does not release every acquired per-key lock on this
exit path. -/
theorem uploadContent_cacheHit_leak :
    (uploadContent uploadEnvW (Thing.buf [1, 2]) none none).ret = Except.ok "mxc://cached" ∧
    (uploadContent uploadEnvW (Thing.buf [1, 2]) none none).locks = [hashBuffer [1, 2]] ∧
    (uploadContent uploadEnvW (Thing.buf [1, 2]) none none).locks ≠ [] := by
  refine ⟨by decide, by decide, by decide⟩

/-- Claim C9: getPartsFromMxid resolves an id starting with an exclamation
mark through the stored mapping (null when unmapped); an alias whose
bridge-namespace suffix is 7_a2b3 yields puppetId 7 and the unescaped room
id (which for this suffix is a2b3 itself); any suffix without a leading
digit run followed by an underscore yields null. -/
theorem getPartsFromMxid_inverse_lookup :
    (∀ (sfx : String → Option String) (st : RoomStore) (mxid : String) (r : RoomStoreEntry),
       firstCharIs mxid '!' = true → getByMxid st mxid = some r →
       RoomSyncroniser.getPartsFromMxid sfx st mxid = some (r.puppetId, r.roomId)) ∧
    (∀ (sfx : String → Option String) (st : RoomStore) (mxid : String),
       firstCharIs mxid '!' = true → getByMxid st mxid = none →
       RoomSyncroniser.getPartsFromMxid sfx st mxid = none) ∧
    (∀ (sfx : String → Option String) (st : RoomStore) (mxid : String),
       firstCharIs mxid '!' = false → sfx mxid = some "7_a2b3" →
       RoomSyncroniser.getPartsFromMxid sfx st mxid = some (7, mxid2str "a2b3")) ∧
    mxid2str "a2b3" = "a2b3" ∧
    (∀ (sfx : String → Option String) (st : RoomStore) (mxid s : String),
       firstCharIs mxid '!' = false → sfx mxid = some s → parseSuffix s = none →
       RoomSyncroniser.getPartsFromMxid sfx st mxid = none) ∧
    (∀ (sfx : String → Option String) (st : RoomStore) (mxid : String),
       firstCharIs mxid '!' = false → sfx mxid = none →
       RoomSyncroniser.getPartsFromMxid sfx st mxid = none) ∧
    parseSuffix "abc_x" = none ∧ parseSuffix "" = none := by
  refine ⟨?_, ?_, ?_, by decide, ?_, ?_, by decide, by decide⟩
  · intro sfx st mxid r hm hr
    simp [RoomSyncroniser.getPartsFromMxid, hm, hr]
  · intro sfx st mxid hm hr
    simp [RoomSyncroniser.getPartsFromMxid, hm, hr]
  · intro sfx st mxid hm hs
    have hp : parseSuffix "7_a2b3" = some (7, "a2b3") := by decide
    have hu : mxid2str "a2b3" = "a2b3" := by decide
    simp [RoomSyncroniser.getPartsFromMxid, hm, hs, hp, hu]
  · intro sfx st mxid s hm hs hp
    simp [RoomSyncroniser.getPartsFromMxid, hm, hs, hp]
  · intro sfx st mxid hm hs
    simp [RoomSyncroniser.getPartsFromMxid, hm, hs]

/-- Witness for C9 at concrete ids against roomStoreW and sfxW. -/
theorem getPartsFromMxid_inverse_lookup_witness :
    RoomSyncroniser.getPartsFromMxid sfxW roomStoreW "!abc:example.org" = some (3, "chan1") ∧
    RoomSyncroniser.getPartsFromMxid sfxW roomStoreW "!other:example.org" = none ∧
    RoomSyncroniser.getPartsFromMxid sfxW roomStoreW "#_myprefix_7_a2b3:example.org" = some (7, mxid2str "a2b3") ∧
    RoomSyncroniser.getPartsFromMxid sfxW roomStoreW "#_myprefix_bad:example.org" = none := by
  have h := getPartsFromMxid_inverse_lookup
  refine ⟨?_, ?_, ?_, ?_⟩
  · exact h.1 sfxW roomStoreW "!abc:example.org" roomEntryW (by decide) (by decide)
  · exact h.2.1 sfxW roomStoreW "!other:example.org" (by decide) (by decide)
  · exact h.2.2.1 sfxW roomStoreW "#_myprefix_7_a2b3:example.org" (by decide) (by decide)
  · exact h.2.2.2.2.1 sfxW roomStoreW "#_myprefix_bad:example.org" "bad" (by decide) (by decide) (by decide)

/-- Claim C4: maybeLeaveGhost is a no-op when the ghost is not in the room
or is the sole ghost there; when the departing ghost is the stored room
operator and another ghost is present, the power level is handed over and
the new operator persisted strictly before the leave is performed; when no
other ghost exists, or reading or writing the power levels fails, the
leave is aborted with the stores untouched. -/
theorem maybeLeaveGhost_operator_succession :
    (∀ (env : LeaveEnv) (st : Stores) (room user : String),
       (ghostsInRoom st room).contains user = false →
       maybeLeaveGhost env st room user = Except.ok (st, [])) ∧
    (∀ (env : LeaveEnv) (st : Stores) (room user : String),
       ghostsInRoom st room = [user] →
       maybeLeaveGhost env st room user = Except.ok (st, [])) ∧
    (∀ (env : LeaveEnv) (st : Stores) (room user newOp : String) (pl : PowerLevels),
       (ghostsInRoom st room).contains user = true →
       ((ghostsInRoom st room).length == 1) = false →
       getRoomOpStore st.rooms room = some user →
       (ghostsInRoom st room).find? (fun g => g != user) = some newOp →
       env.getPowerLevels room = Except.ok pl →
       env.sendPowerLevels room (assignPower pl newOp user) = Except.ok () →
       env.leaveRoom user room = Except.ok () →
       maybeLeaveGhost env st room user =
         Except.ok
           (leaveGhostFromRoom { st with rooms := setRoomOpStore st.rooms room newOp } user room,
            [LOp.powerGet room, LOp.powerSend room, LOp.setRoomOp room newOp,
             LOp.leave user room, LOp.ghostStoreLeave user room]) ∧
       getRoomOpStore (leaveGhostFromRoom { st with rooms := setRoomOpStore st.rooms room newOp } user room).rooms room = some newOp) ∧
    (∀ (env : LeaveEnv) (st : Stores) (room user : String),
       (ghostsInRoom st room).contains user = true →
       ((ghostsInRoom st room).length == 1) = false →
       getRoomOpStore st.rooms room = some user →
       (ghostsInRoom st room).find? (fun g => g != user) = none →
       maybeLeaveGhost env st room user = Except.ok (st, [])) ∧
    (∀ (env : LeaveEnv) (st : Stores) (room user newOp : String) (e : MatrixError),
       (ghostsInRoom st room).contains user = true →
       ((ghostsInRoom st room).length == 1) = false →
       getRoomOpStore st.rooms room = some user →
       (ghostsInRoom st room).find? (fun g => g != user) = some newOp →
       env.getPowerLevels room = Except.error e →
       maybeLeaveGhost env st room user = Except.ok (st, [LOp.powerGet room])) ∧
    (∀ (env : LeaveEnv) (st : Stores) (room user newOp : String) (pl : PowerLevels) (e : MatrixError),
       (ghostsInRoom st room).contains user = true →
       ((ghostsInRoom st room).length == 1) = false →
       getRoomOpStore st.rooms room = some user →
       (ghostsInRoom st room).find? (fun g => g != user) = some newOp →
       env.getPowerLevels room = Except.ok pl →
       env.sendPowerLevels room (assignPower pl newOp user) = Except.error e →
       maybeLeaveGhost env st room user = Except.ok (st, [LOp.powerGet room, LOp.powerSend room])) := by
  refine ⟨?_, ?_, ?_, ?_, ?_, ?_⟩
  · intro env st room user h1
    have h1m : user ∉ ghostsInRoom st room := by simpa using h1
    simp [maybeLeaveGhost, h1m]
  · intro env st room user h1
    simp [maybeLeaveGhost, h1]
  · intro env st room user newOp pl h1 h2 h3 h4 h5 h6 h7
    have h1m : user ∈ ghostsInRoom st room := by simpa using h1
    have h2m : ¬ (ghostsInRoom st room).length = 1 := by simpa using h2
    constructor
    · simp [maybeLeaveGhost, h1m, h2m, h3, h4, h5, h6, leaveTail, h7]
    · simp [getRoomOpStore, setRoomOpStore, leaveGhostFromRoom]
  · intro env st room user h1 h2 h3 h4
    have h1m : user ∈ ghostsInRoom st room := by simpa using h1
    have h2m : ¬ (ghostsInRoom st room).length = 1 := by simpa using h2
    simp [maybeLeaveGhost, h1m, h2m, h3, h4]
  · intro env st room user newOp e h1 h2 h3 h4 h5
    have h1m : user ∈ ghostsInRoom st room := by simpa using h1
    have h2m : ¬ (ghostsInRoom st room).length = 1 := by simpa using h2
    simp [maybeLeaveGhost, h1m, h2m, h3, h4, h5]
  · intro env st room user newOp pl e h1 h2 h3 h4 h5 h6
    have h1m : user ∈ ghostsInRoom st room := by simpa using h1
    have h2m : ¬ (ghostsInRoom st room).length = 1 := by simpa using h2
    simp [maybeLeaveGhost, h1m, h2m, h3, h4, h5, h6]

/-- Witness for C4: in storesW, a departing non-member is a no-op, and the
departing operator g1 hands over to g2, persists g2 as operator, and only
then leaves. -/
theorem maybeLeaveGhost_operator_succession_witness :
    maybeLeaveGhost leaveEnvW storesW "!r:hs" "@gx:hs" = Except.ok (storesW, []) ∧
    (maybeLeaveGhost leaveEnvW storesW "!r:hs" "@g1:hs" =
      Except.ok
        (leaveGhostFromRoom { storesW with rooms := setRoomOpStore storesW.rooms "!r:hs" "@g2:hs" } "@g1:hs" "!r:hs",
         [LOp.powerGet "!r:hs", LOp.powerSend "!r:hs", LOp.setRoomOp "!r:hs" "@g2:hs",
          LOp.leave "@g1:hs" "!r:hs", LOp.ghostStoreLeave "@g1:hs" "!r:hs"]) ∧
     getRoomOpStore (leaveGhostFromRoom { storesW with rooms := setRoomOpStore storesW.rooms "!r:hs" "@g2:hs" } "@g1:hs" "!r:hs").rooms "!r:hs" = some "@g2:hs") := by
  constructor
  · exact maybeLeaveGhost_operator_succession.1 leaveEnvW storesW "!r:hs" "@gx:hs" (by decide)
  · exact maybeLeaveGhost_operator_succession.2.2.1 leaveEnvW storesW "!r:hs" "@g1:hs" "@g2:hs"
      { users := [("@g1:hs", 100)] } (by decide) (by decide) (by decide) (by decide) rfl rfl rfl

/-- A ghost-deletion fold rewrites only the user store, leaving the room
store unchanged. -/
theorem deleteGhostFold_rooms (sfx : String → Option String) :
    ∀ (l : List String) (st : Stores),
      (l.foldl (fun acc g => { acc with users := UserSyncroniser.deleteForMxid sfx acc.users g }) st).rooms = st.rooms := by
  intro l
  induction l with
  | nil => intro st; rfl
  | cons g rest ih => intro st; simpa using ih _

/-- When the joined-rooms query answers, one deleteEntries step succeeds
and its effect on the room store is exactly the deletion of the entry. -/
theorem deleteEntryStep_rooms (env : DeleteEnv) (k : Bool) (st : Stores) (e : RoomStoreEntry)
    (js : List String) (hjr : env.getJoinedRooms = Except.ok js) :
    ∃ st2 ops, deleteEntryStep env k st e = Except.ok (st2, ops) ∧
      st2.rooms = roomStoreDelete st.rooms e := by
  unfold deleteEntryStep
  rw [hjr]
  refine ⟨_, _, rfl, ?_⟩
  by_cases hk : k
  · simp [hk, emptyGhostsInRoom]
  · simp [hk, emptyGhostsInRoom, deleteGhostFold_rooms]

/-- When the joined-rooms query answers, deleteEntries succeeds on any
entry list and filters exactly the listed keys out of the room store. -/
theorem deleteEntries_rooms (env : DeleteEnv) (k : Bool) (js : List String)
    (hjr : env.getJoinedRooms = Except.ok js) :
    ∀ (l : List RoomStoreEntry) (st : Stores) (ops : List DOp),
      ∃ st2 ops2, deleteEntries env k st ops l = Except.ok (st2, ops2) ∧
        st2.rooms.entries =
          st.rooms.entries.filter
            (fun x => !(l.any (fun e => x.puppetId == e.puppetId && x.roomId == e.roomId))) := by
  intro l
  induction l with
  | nil =>
    intro st ops
    exact ⟨st, ops, rfl, by simp⟩
  | cons e rest ih =>
    intro st ops
    obtain ⟨st1, ops1, hstep, hr1⟩ := deleteEntryStep_rooms env k st e js hjr
    obtain ⟨st2, ops2, hrest, hr2⟩ := ih st1 (ops ++ ops1)
    refine ⟨st2, ops2, ?_, ?_⟩
    · unfold deleteEntries
      rw [hstep]
      exact hrest
    · rw [hr2, hr1]
      simp only [roomStoreDelete]
      rw [List.filter_filter]
      congr 1
      funext x
      simp [List.any_cons, Bool.and_comm]

/-- Claim C5: deleteForPuppet removes every persisted room mapping owned
by the puppet even when every wrapped target-side cleanup call (alias
removal, bot departure, ghost departure) fails: the oracles for those
calls are arbitrary, and only the joined-rooms membership query (a read,
not a cleanup call) is assumed to answer. -/
theorem deleteForPuppet_removes_all_mappings (env : DeleteEnv) (st : Stores) (pid : Nat)
    (js : List String) (hjr : env.getJoinedRooms = Except.ok js) :
    ∃ st2 ops, deleteForPuppet env st pid = Except.ok (st2, ops) ∧
      st2.rooms.entries = st.rooms.entries.filter (fun e => !(e.puppetId == pid)) := by
  obtain ⟨st2, ops2, hdel, hr⟩ := deleteEntries_rooms env false js hjr (getByPuppetId st pid) st []
  refine ⟨st2, ops2, hdel, ?_⟩
  rw [hr]
  apply List.filter_congr
  intro x hx
  by_cases hp : x.puppetId = pid
  · have hany : (getByPuppetId st pid).any (fun e => x.puppetId == e.puppetId && x.roomId == e.roomId) = true := by
      refine List.any_eq_true.mpr ⟨x, ?_, by simp⟩
      unfold getByPuppetId
      exact List.mem_filter.mpr ⟨hx, by simp [hp]⟩
    simp only [hany]
    simp [hp]
  · have hany : (getByPuppetId st pid).any (fun e => x.puppetId == e.puppetId && x.roomId == e.roomId) = false := by
      rw [List.any_eq_false]
      intro e he
      simp only [getByPuppetId] at he
      have hepid : e.puppetId = pid := by simpa using (List.mem_filter.mp he).2
      simp only [Bool.and_eq_true, beq_iff_eq, not_and]
      intro hxe
      exact absurd (hxe.trans hepid) hp
    simp only [hany]
    simp [hp]

/-- Witness for C5: with both cleanup oracles failing everywhere, both
mappings of puppet 3 are removed and the mapping of puppet 4 survives. -/
theorem deleteForPuppet_removes_all_mappings_witness :
    ∃ st2 ops, deleteForPuppet deleteEnvW deleteStoresW 3 = Except.ok (st2, ops) ∧
      st2.rooms.entries = deleteStoresW.rooms.entries.filter (fun e => !(e.puppetId == 3)) :=
  deleteForPuppet_removes_all_mappings deleteEnvW deleteStoresW 3 ["!a:hs"] rfl

/-- Claim C8 counterexample: with the membership state write failing with
the non-forbidden errcode M_LIMIT_EXCEEDED, updateRoomOverride returns
normally (the outer catch logs and swallows) and does not persist the
override, so the failure does not propagate to its caller as the claim
states. -/
theorem updateRoomOverride_error_swallowed_cex :
    UserSyncroniser.updateRoomOverride userEnvC8 emptyUserStore (Client.ghost "1_alice")
        userC8 "chan" ovC8 (some origC8) =
      Except.ok (emptyUserStore, []) := by
  decide

/-- Claim C8 (amended): updateRoomOverride never lets a failure reach its
caller; a permission-denied failure of the override state write is
swallowed and the override is still persisted; a failure with any other
error kind skips persisting the override and is caught and logged by the
outer catch of updateRoomOverride itself. -/
theorem updateRoomOverride_forbidden_swallowed :
    (∀ (env : UserEnv) (st : UserStore) (client : Client) (userData : RemoteUser)
       (roomId : String) (ov : Profile) (orig : Option UserStoreEntry),
       ∃ x, UserSyncroniser.updateRoomOverride env st client userData roomId ov orig = Except.ok x) ∧
    (∀ (env : UserEnv) (st : UserStore) (client : Client) (userData : RemoteUser)
       (roomId : String) (ov : Profile) (orig : UserStoreEntry) (rm : String)
       (e : MatrixError) (upd : ProfileUpdate),
       processProfileUpdate env.fp env.upl env.patternOverride
         ((findOverride st userData.puppetId userData.userId roomId).map profileOfOverride) ov = upd →
       (upd.name.isSome || upd.avatarMxc.isSome) = true →
       env.roomMxid userData.puppetId roomId = some rm →
       env.sendMember rm = Except.error e →
       UserSyncroniser.errForbidden e = true →
       ∃ u2, UserSyncroniser.updateRoomOverride env st client userData roomId ov (some orig) =
         Except.ok (overrideStoreSetF st u2, [UOp.overrideStoreSet u2])) ∧
    (∀ (env : UserEnv) (st : UserStore) (client : Client) (userData : RemoteUser)
       (roomId : String) (ov : Profile) (orig : UserStoreEntry) (rm : String)
       (e : MatrixError) (upd : ProfileUpdate),
       processProfileUpdate env.fp env.upl env.patternOverride
         ((findOverride st userData.puppetId userData.userId roomId).map profileOfOverride) ov = upd →
       (upd.name.isSome || upd.avatarMxc.isSome) = true →
       env.roomMxid userData.puppetId roomId = some rm →
       env.sendMember rm = Except.error e →
       UserSyncroniser.errForbidden e = false →
       UserSyncroniser.updateRoomOverride env st client userData roomId ov (some orig) =
         Except.ok (st, [])) := by
  refine ⟨?_, ?_, ?_⟩
  · intro env st client userData roomId ov orig
    unfold UserSyncroniser.updateRoomOverride
    cases UserSyncroniser.updateRoomOverrideBody env st client userData roomId ov orig with
    | ok x => exact ⟨x, rfl⟩
    | error e => exact ⟨(st, []), rfl⟩
  · intro env st client userData roomId ov orig rm e upd hupd hch hrm hsend hforb
    refine ⟨applyOverrideUpdate
      (match findOverride st userData.puppetId userData.userId roomId with
       | some x => x
       | none => newRoomOverrideData userData.puppetId userData.userId roomId) upd, ?_⟩
    simp [UserSyncroniser.updateRoomOverride, UserSyncroniser.updateRoomOverrideBody,
      UserSyncroniser.setRoomOverride, hupd, hch, hrm, hsend, hforb]
  · intro env st client userData roomId ov orig rm e upd hupd hch hrm hsend hforb
    simp [UserSyncroniser.updateRoomOverride, UserSyncroniser.updateRoomOverrideBody,
      UserSyncroniser.setRoomOverride, hupd, hch, hrm, hsend, hforb]

/-- Witness for the amended C8 at concrete inputs: the forbidden failure
persists the override and returns normally, the non-forbidden failure
persists nothing and also returns normally. -/
theorem updateRoomOverride_forbidden_swallowed_witness :
    (∃ u2, UserSyncroniser.updateRoomOverride userEnvC8F emptyUserStore (Client.ghost "1_alice")
        userC8 "chan" ovC8 (some origC8) =
      Except.ok (overrideStoreSetF emptyUserStore u2, [UOp.overrideStoreSet u2])) ∧
    UserSyncroniser.updateRoomOverride userEnvC8 emptyUserStore (Client.ghost "1_alice")
        userC8 "chan" ovC8 (some origC8) =
      Except.ok (emptyUserStore, []) := by
  constructor
  · exact updateRoomOverride_forbidden_swallowed.2.1 userEnvC8F emptyUserStore
      (Client.ghost "1_alice") userC8 "chan" ovC8 origC8 "!room:hs"
      { body := some { errcode := some "M_FORBIDDEN" } } _ rfl (by decide) rfl rfl (by decide)
  · exact updateRoomOverride_forbidden_swallowed.2.2 userEnvC8 emptyUserStore
      (Client.ghost "1_alice") userC8 "chan" ovC8 origC8 "!room:hs"
      { body := some { errcode := some "M_LIMIT_EXCEEDED" } } _ rfl (by decide) rfl rfl (by decide)

/-- The hook-override rule on the user side preserves the requested
(puppetId, userId) pair. -/
theorem effectiveCreateUserData_pair (hook : Option (RemoteUser → Option RemoteUser)) (d : RemoteUser) :
    (effectiveCreateUserData hook d).puppetId = d.puppetId ∧
    (effectiveCreateUserData hook d).userId = d.userId := by
  cases hook with
  | none => exact ⟨rfl, rfl⟩
  | some h =>
    cases hh : h d with
    | none => simp [effectiveCreateUserData, hh]
    | some nd =>
      by_cases hc : (nd.userId == d.userId && nd.puppetId == d.puppetId) = true
      · simp only [effectiveCreateUserData, hh, if_pos hc]
        simp only [Bool.and_eq_true, beq_iff_eq] at hc
        exact ⟨hc.2, hc.1⟩
      · simp [effectiveCreateUserData, hh, hc]

/-- The ghost path of getClient always returns the namespaced ghost client
of the requested pair (the hook rewrite cannot change the pair). -/
theorem getClientGhost_client (hook : Option (RemoteUser → Option RemoteUser))
    (env : UserEnv) (st : UserStore) (data : RemoteUser) :
    (UserSyncroniser.getClientGhost hook env st data).client =
      Client.ghost (ghostSuffix data.puppetId data.userId) := by
  unfold UserSyncroniser.getClientGhost
  cases hu : findUser st data.puppetId data.userId with
  | some u => simp [hu]
  | none =>
    obtain ⟨hp, hi⟩ := effectiveCreateUserData_pair hook data
    simp [hu, hp, hi]

/-- Claim C10 counterexample: puppet 1 is configured for remote user
alice, no usable client comes from the stored token, and no ghost mapping
is persisted; maybeGetClient then returns null rather than registering and
returning a namespaced ghost client as the claim states. -/
theorem maybeGetClient_unusable_token_no_ghost_cex :
    UserSyncroniser.maybeGetClient userEnvC10 emptyUserStore userC10 = none := by
  decide

/-- Claim C10 (amended): when a remote user matches a configured puppet
but no usable authenticated client can be obtained from the stored token,
getClient silently falls back to the ghost path and returns the namespaced
ghost client; maybeGetClient falls back to its ghost path, which returns
the ghost client when a ghost mapping is persisted and null otherwise. -/
theorem doublePuppet_unusable_token_fallback (hook : Option (RemoteUser → Option RemoteUser))
    (env : UserEnv) (st : UserStore) (data : RemoteUser)
    (hmatch : env.puppetUserId data.puppetId = some data.userId)
    (hnoclient : env.puppetClient data.puppetId = none) :
    (UserSyncroniser.getClient hook env st data).client =
      Client.ghost (ghostSuffix data.puppetId data.userId) ∧
    UserSyncroniser.maybeGetClient env st data =
      (match findUser st data.puppetId data.userId with
       | none => none
       | some _ => some (Client.ghost (ghostSuffix data.puppetId data.userId))) := by
  have hb : (env.puppetUserId data.puppetId == some data.userId) = true := by
    simp [hmatch]
  constructor
  · simp [UserSyncroniser.getClient, hb, hnoclient, getClientGhost_client]
  · simp [UserSyncroniser.maybeGetClient, hb, hnoclient]

/-- Witness for the amended C10: with the ghost mapping persisted, both
getClient and maybeGetClient hand out the ghost client of (1, alice). -/
theorem doublePuppet_unusable_token_fallback_witness :
    (UserSyncroniser.getClient none userEnvC10 userStoreC10 userC10).client =
      Client.ghost (ghostSuffix userC10.puppetId userC10.userId) ∧
    UserSyncroniser.maybeGetClient userEnvC10 userStoreC10 userC10 =
      (match findUser userStoreC10 userC10.puppetId userC10.userId with
       | none => none
       | some _ => some (Client.ghost (ghostSuffix userC10.puppetId userC10.userId))) :=
  doublePuppet_unusable_token_fallback none userEnvC10 userStoreC10 userC10 (by decide) rfl

/-- Without a hook the override rule keeps the data unchanged. -/
theorem effectiveCreateData_none (d : RemoteRoom) : effectiveCreateData none d = d := rfl

/-- Without a hook the user override rule keeps the data unchanged. -/
theorem effectiveCreateUserData_none (d : RemoteUser) : effectiveCreateUserData none d = d := rfl

/-- The hook-override rule on the room side preserves the requested
(puppetId, roomId) pair. -/
theorem effectiveCreateData_pair (hook : Option (RemoteRoom → Option RemoteRoom)) (d : RemoteRoom) :
    (effectiveCreateData hook d).puppetId = d.puppetId ∧
    (effectiveCreateData hook d).roomId = d.roomId := by
  cases hook with
  | none => exact ⟨rfl, rfl⟩
  | some h =>
    cases hh : h d with
    | none => simp [effectiveCreateData, hh]
    | some nd =>
      by_cases hc : (nd.puppetId == d.puppetId && nd.roomId == d.roomId) = true
      · simp only [effectiveCreateData, hh, if_pos hc]
        simp only [Bool.and_eq_true, beq_iff_eq] at hc
        exact ⟨hc.1, hc.2⟩
      · simp [effectiveCreateData, hh, hc]

/-- The ghost path of getClient behaves, on first sight of a user, as if
called without a hook on the hook-rewritten data. -/
theorem getClientGhost_hook_rewrite (hook : Option (RemoteUser → Option RemoteUser))
    (env : UserEnv) (st : UserStore) (data : RemoteUser)
    (h0 : findUser st data.puppetId data.userId = none) :
    UserSyncroniser.getClientGhost hook env st data =
      UserSyncroniser.getClientGhost none env st (effectiveCreateUserData hook data) := by
  obtain ⟨hp, hu⟩ := effectiveCreateUserData_pair hook data
  have h2 : findUser st (effectiveCreateUserData hook data).puppetId
      (effectiveCreateUserData hook data).userId = none := by
    rw [hp, hu]; exact h0
  simp only [UserSyncroniser.getClientGhost, h0, h2, effectiveCreateUserData_none]

/-- Claim C6: when no mapping exists and creation runs, getMxid and
getClient proceed exactly as a hook-free call on the data selected by the
identity-preserving override rule; and that rule keeps a returned override
only when it preserves the requested pair, falling back to the original
data when the override is missing or rewrites the pair (which is warned
about and discarded). -/
theorem createHook_identity_rule :
    (∀ (hook : Option (RemoteRoom → Option RemoteRoom)) (env : RoomEnv)
       (st : RoomStore) (data : RemoteRoom) (invites : Option (List String)),
       getByRemote st data.puppetId data.roomId = none →
       RoomSyncroniser.getMxid hook env st data invites true =
         RoomSyncroniser.getMxid none env st (effectiveCreateData hook data) invites true) ∧
    (∀ (h : RemoteRoom → Option RemoteRoom) (data newData : RemoteRoom),
       h data = some newData → newData.puppetId = data.puppetId → newData.roomId = data.roomId →
       effectiveCreateData (some h) data = newData) ∧
    (∀ (h : RemoteRoom → Option RemoteRoom) (data newData : RemoteRoom),
       h data = some newData → ¬(newData.puppetId = data.puppetId ∧ newData.roomId = data.roomId) →
       effectiveCreateData (some h) data = data) ∧
    (∀ (h : RemoteRoom → Option RemoteRoom) (data : RemoteRoom),
       h data = none → effectiveCreateData (some h) data = data) ∧
    (∀ (hook : Option (RemoteUser → Option RemoteUser)) (env : UserEnv)
       (st : UserStore) (data : RemoteUser),
       findUser st data.puppetId data.userId = none →
       UserSyncroniser.getClient hook env st data =
         UserSyncroniser.getClient none env st (effectiveCreateUserData hook data)) ∧
    (∀ (h : RemoteUser → Option RemoteUser) (data newData : RemoteUser),
       h data = some newData → newData.puppetId = data.puppetId → newData.userId = data.userId →
       effectiveCreateUserData (some h) data = newData) ∧
    (∀ (h : RemoteUser → Option RemoteUser) (data newData : RemoteUser),
       h data = some newData → ¬(newData.puppetId = data.puppetId ∧ newData.userId = data.userId) →
       effectiveCreateUserData (some h) data = data) ∧
    (∀ (h : RemoteUser → Option RemoteUser) (data : RemoteUser),
       h data = none → effectiveCreateUserData (some h) data = data) := by
  refine ⟨?_, ?_, ?_, ?_, ?_, ?_, ?_, ?_⟩
  · intro hook env st data invites h0
    obtain ⟨hp, hr⟩ := effectiveCreateData_pair hook data
    have h2 : getByRemote st (effectiveCreateData hook data).puppetId
        (effectiveCreateData hook data).roomId = none := by
      rw [hp, hr]; exact h0
    simp only [RoomSyncroniser.getMxid, h0, h2, effectiveCreateData_none]
  · intro h data newData hh hp hr
    simp [effectiveCreateData, hh, hp, hr]
  · intro h data newData hh hne
    have hc : (newData.puppetId == data.puppetId && newData.roomId == data.roomId) = false := by
      rcases Decidable.not_and_iff_or_not.mp hne with hx | hx <;> simp [hx]
    simp [effectiveCreateData, hh, hc]
  · intro h data hh
    simp [effectiveCreateData, hh]
  · intro hook env st data h0
    obtain ⟨hp, hu⟩ := effectiveCreateUserData_pair hook data
    have hg := getClientGhost_hook_rewrite hook env st data h0
    simp only [UserSyncroniser.getClient]
    rw [hp, hu]
    cases hpc : env.puppetClient data.puppetId with
    | some c => simp [hpc, hg]
    | none => simp [hpc, hg]
  · intro h data newData hh hp hu
    simp [effectiveCreateUserData, hh, hp, hu]
  · intro h data newData hh hne
    have hc : (newData.userId == data.userId && newData.puppetId == data.puppetId) = false := by
      rcases Decidable.not_and_iff_or_not.mp hne with hx | hx <;> simp [hx]
    simp [effectiveCreateUserData, hh, hc]
  · intro h data hh
    simp [effectiveCreateUserData, hh]

/-- Witness for C6 at concrete hooks: a pair-preserving hook replaces the
creation payload, a pair-rewriting hook is discarded, and both engines
behave as the hook-free call on the selected data. -/
theorem createHook_identity_rule_witness :
    RoomSyncroniser.getMxid (some hookRoomW) roomEnvW emptyRoomStore dataRoomW none true =
      RoomSyncroniser.getMxid none roomEnvW emptyRoomStore (effectiveCreateData (some hookRoomW) dataRoomW) none true ∧
    effectiveCreateData (some hookRoomW) dataRoomW = { dataRoomW with name := some "hooked" } ∧
    effectiveCreateData (some hookRoomBad) dataRoomW = dataRoomW ∧
    UserSyncroniser.getClient (some hookUserW) userEnvC10 emptyUserStore dataUserW =
      UserSyncroniser.getClient none userEnvC10 emptyUserStore (effectiveCreateUserData (some hookUserW) dataUserW) := by
  refine ⟨?_, ?_, ?_, ?_⟩
  · exact createHook_identity_rule.1 (some hookRoomW) roomEnvW emptyRoomStore dataRoomW none (by decide)
  · exact createHook_identity_rule.2.1 hookRoomW dataRoomW { dataRoomW with name := some "hooked" } rfl rfl rfl
  · exact createHook_identity_rule.2.2.1 hookRoomBad dataRoomW { dataRoomW with roomId := "other" } rfl (by decide)
  · exact createHook_identity_rule.2.2.2.2.1 (some hookUserW) userEnvC10 emptyUserStore dataUserW (by decide)

/-- Applying the empty diff changes nothing on a ghost entry. -/
theorem applyUserUpdate_empty (e : UserStoreEntry) : applyUserUpdate e emptyProfileUpdate = e := rfl

/-- An override update whose reconciler diff is empty is a complete no-op:
no state write, no persistence write, and a normal return. -/
theorem updateRoomOverride_empty (env : UserEnv) (st : UserStore) (client : Client)
    (userData : RemoteUser) (roomId : String) (ov : Profile) (orig : Option UserStoreEntry)
    (h : processProfileUpdate env.fp env.upl env.patternOverride
        ((findOverride st userData.puppetId userData.userId roomId).map profileOfOverride) ov = emptyProfileUpdate) :
    UserSyncroniser.updateRoomOverride env st client userData roomId ov orig = Except.ok (st, []) := by
  simp [UserSyncroniser.updateRoomOverride, UserSyncroniser.updateRoomOverrideBody, h, emptyProfileUpdate]

/-- A background override pass over overrides whose diffs are all empty
leaves the store and the call log unchanged. -/
theorem bgOverrideStep_fold_noop (env : UserEnv) (client : Client) (data : RemoteUser)
    (user2 : UserStoreEntry) :
    ∀ (l : List (String × Profile)) (st : UserStore) (ops : List UOp),
      (∀ p ∈ l, processProfileUpdate env.fp env.upl env.patternOverride
          ((findOverride st data.puppetId data.userId p.fst).map profileOfOverride) p.snd = emptyProfileUpdate) →
      l.foldl (UserSyncroniser.bgOverrideStep env client data user2) (st, ops) = (st, ops) := by
  intro l
  induction l with
  | nil => intro st ops _; rfl
  | cons p rest ih =>
    intro st ops h
    have h1 := h p (List.mem_cons_self p rest)
    have hstep : UserSyncroniser.bgOverrideStep env client data user2 (st, ops) p = (st, ops) := by
      simp [UserSyncroniser.bgOverrideStep, updateRoomOverride_empty env st client data p.fst p.snd (some user2) h1]
    rw [List.foldl_cons, hstep]
    exact ih st ops (fun q hq => h q (List.mem_cons_of_mem p hq))

/-- The ghost path of getClient issues no write at all when the profile
diff and every supplied override diff are empty. -/
theorem getClientGhost_noChange (hook : Option (RemoteUser → Option RemoteUser))
    (env : UserEnv) (st : UserStore) (data : RemoteUser) (u : UserStoreEntry)
    (hfind : findUser st data.puppetId data.userId = some u)
    (hupd : processProfileUpdate env.fp env.upl env.pattern (some (profileOfUser u))
        (userProfileOfData data) = emptyProfileUpdate)
    (hov : ∀ p ∈ data.roomOverrides, processProfileUpdate env.fp env.upl env.patternOverride
        ((findOverride st data.puppetId data.userId p.fst).map profileOfOverride) p.snd = emptyProfileUpdate) :
    (UserSyncroniser.getClientGhost hook env st data).ops.filter isUserWrite = [] ∧
    (UserSyncroniser.getClientGhost hook env st data).store = st := by
  have hfold := bgOverrideStep_fold_noop env
    (Client.ghost (ghostSuffix data.puppetId data.userId)) data
    (applyUserUpdate u { name := none, avatarUrl := none, avatarMxc := none })
    data.roomOverrides st [] hov
  simp [UserSyncroniser.getClientGhost, hfind, hupd, emptyProfileUpdate, hfold, isUserWrite]

/-- Claim C7: with an existing mapping and a reconciler diff that reports
no name and no avatar change (and, for rooms, an unchanged topic and group
id, and for users, override diffs that are also empty), getMxid and
getClient issue zero state writes through the transport and zero
persistence writes, and getMxid returns the stored mxid. -/
theorem unchanged_profile_zero_writes :
    (∀ (hook : Option (RemoteRoom → Option RemoteRoom)) (env : RoomEnv) (st : RoomStore)
       (data : RemoteRoom) (invites : Option (List String)) (r : RoomStoreEntry),
       getByRemote st data.puppetId data.roomId = some r →
       processProfileUpdate env.fp env.upl env.pattern (some (profileOfEntry r))
         (roomProfileOfData data) = emptyProfileUpdate →
       topicChangedB data r = false →
       groupChangedB data r = false →
       (RoomSyncroniser.getMxid hook env st data invites true).ops = [] ∧
       (RoomSyncroniser.getMxid hook env st data invites true).store = st ∧
       (RoomSyncroniser.getMxid hook env st data invites true).mxid = r.mxid) ∧
    (∀ (hook : Option (RemoteUser → Option RemoteUser)) (env : UserEnv) (st : UserStore)
       (data : RemoteUser) (u : UserStoreEntry),
       findUser st data.puppetId data.userId = some u →
       processProfileUpdate env.fp env.upl env.pattern (some (profileOfUser u))
         (userProfileOfData data) = emptyProfileUpdate →
       (∀ p ∈ data.roomOverrides, processProfileUpdate env.fp env.upl env.patternOverride
           ((findOverride st data.puppetId data.userId p.fst).map profileOfOverride) p.snd = emptyProfileUpdate) →
       (UserSyncroniser.getClient hook env st data).ops.filter isUserWrite = [] ∧
       (UserSyncroniser.getClient hook env st data).store = st) := by
  constructor
  · intro hook env st data invites r hfind hupd htc hgc
    refine ⟨?_, ?_, ?_⟩ <;>
      simp [RoomSyncroniser.getMxid, hfind, hupd, htc, hgc, emptyProfileUpdate]
  · intro hook env st data u hfind hupd hov
    have hg := getClientGhost_noChange hook env st data u hfind hupd hov
    by_cases hb : (env.puppetUserId data.puppetId == some data.userId) = true
    · cases hpc : env.puppetClient data.puppetId with
      | some c => simp [UserSyncroniser.getClient, hb, hpc]
      | none => simpa [UserSyncroniser.getClient, hb, hpc] using hg
    · simpa [UserSyncroniser.getClient, hb] using hg

/-- Witness for C7 at concrete stores whose persisted profiles equal the
observed ones. -/
theorem unchanged_profile_zero_writes_witness :
    ((RoomSyncroniser.getMxid none roomEnvW c7RoomStore c7RoomData none true).ops = [] ∧
     (RoomSyncroniser.getMxid none roomEnvW c7RoomStore c7RoomData none true).store = c7RoomStore ∧
     (RoomSyncroniser.getMxid none roomEnvW c7RoomStore c7RoomData none true).mxid = c7RoomEntry.mxid) ∧
    ((UserSyncroniser.getClient none userEnvC8 c7UserStore c7UserData).ops.filter isUserWrite = [] ∧
     (UserSyncroniser.getClient none userEnvC8 c7UserStore c7UserData).store = c7UserStore) := by
  constructor
  · exact unchanged_profile_zero_writes.1 none roomEnvW c7RoomStore c7RoomData none c7RoomEntry
      (by decide) (by decide) (by decide) (by decide)
  · refine unchanged_profile_zero_writes.2 none userEnvC8 c7UserStore c7UserData c7UserEntry
      (by decide) (by decide) ?_
    intro p hp
    have hmem : p = ("chan1", ({ name := some "Nick", avatarUrl := none } : Profile)) := by
      simpa [c7UserData] using hp
    rw [hmem]
    decide

theorem applyRoomUpdate_mxid (r : RoomStoreEntry) (u : ProfileUpdate) :
    (applyRoomUpdate r u).mxid = r.mxid := rfl

theorem buildCreatedEntry_mxid (m : String) (d : RemoteRoom) (u : ProfileUpdate) :
    (buildCreatedEntry m d u).mxid = m := by
  by_cases h1 : strTruthy d.topic <;> by_cases h2 : strTruthy d.groupId <;>
    simp [buildCreatedEntry, h1, h2, applyRoomUpdate, newRoomData]

theorem postCreate_inCrit {p : TaskPc} (h : postCreate p = true) : inCrit p = true := by
  cases p <;> simp_all [postCreate, inCrit]

theorem pcInv_congr {p : TaskPc} {sh sh2 : Shared}
    (hst : sh.store = sh2.store) (hcc : sh.createCalls = sh2.createCalls)
    (h : pcInv p sh) : pcInv p sh2 := by
  cases p <;> simp_all [pcInv]

theorem pcInv_notCrit {p : TaskPc} {sh sh2 : Shared}
    (hnc : inCrit p = false) (hst : sh.store = sh2.store)
    (h : pcInv p sh) : pcInv p sh2 := by
  cases p <;> simp_all [inCrit, pcInv]

theorem pcInv_notCrit_storeNone {p : TaskPc} {sh sh2 : Shared}
    (hnc : inCrit p = false) (hnone : sh.store = none)
    (h : pcInv p sh) : pcInv p sh2 := by
  cases p <;> simp_all [inCrit, pcInv]

theorem taskStep_preserves (env : C1Env) (data : RemoteRoom)
    {sh sh2 : Shared} {a a2 b : TaskPc}
    (hinv : C1Inv ⟨sh, a, b⟩) (hstep : taskStep env data a sh = some (a2, sh2)) :
    C1Inv ⟨sh2, a2, b⟩ := by
  simp only [C1Inv] at hinv ⊢
  obtain ⟨hm, hl, hle, hlink, hg4, ha, hb⟩ := hinv
  cases a with
  | start =>
    by_cases hlk : sh.lockHeld = true
    · simp [taskStep, hlk] at hstep
    · simp only [taskStep, if_neg hlk, Option.some.injEq, Prod.mk.injEq] at hstep
      obtain ⟨rfl, rfl⟩ := hstep
      have hlf : sh.lockHeld = false := by simpa using hlk
      have hbc : inCrit b = false := by
        have h2 := hl.symm.trans hlf
        simpa [inCrit] using h2
      refine ⟨?_, ?_, hle, hlink, ?_, trivial, ?_⟩
      · rw [hbc]
        simp [inCrit]
      · rw [hbc]
        simp [inCrit]
      · intro h1 h2
        rcases hg4 h1 h2 with h | h
        · simp [postCreate] at h
        · exact Or.inr h
      · refine pcInv_congr ?_ ?_ hb <;> rfl
  | readStore =>
    have hcrit : inCrit TaskPc.readStore = true := rfl
    have hbc : inCrit b = false := by
      cases hcb : inCrit b
      · rfl
      · exact absurd ⟨hcrit, hcb⟩ hm
    cases hst : sh.store with
    | some r =>
      simp only [taskStep, hst, Option.some.injEq, Prod.mk.injEq] at hstep
      obtain ⟨rfl, rfl⟩ := hstep
      refine ⟨hm, hl, hle, hlink, ?_, ⟨r, hst, rfl⟩, hb⟩
      intro h1 h2
      rw [h2] at hst
      simp at hst
    | none =>
      have hcc0 : sh.createCalls = 0 := by
        rcases Nat.lt_or_ge sh.createCalls 1 with h | h
        · omega
        · have h1 : sh.createCalls = 1 := by omega
          rcases hg4 h1 hst with hp | hp
          · simp [postCreate] at hp
          · exact absurd ⟨hcrit, postCreate_inCrit hp⟩ hm
      by_cases hdc : env.doCreate = true
      · cases hhk : env.hook with
        | some f =>
          simp only [taskStep, hst, hdc, if_pos, hhk, Option.some.injEq, Prod.mk.injEq] at hstep
          obtain ⟨rfl, rfl⟩ := hstep
          exact ⟨hm, hl, hle, hlink, hg4, ⟨hst, hcc0⟩, hb⟩
        | none =>
          simp only [taskStep, hst, hdc, if_pos, hhk, Option.some.injEq, Prod.mk.injEq] at hstep
          obtain ⟨rfl, rfl⟩ := hstep
          exact ⟨hm, hl, hle, hlink, hg4, ⟨hst, hcc0⟩, hb⟩
      · have hdcf : env.doCreate = false := by simpa using hdc
        simp only [taskStep, hst, hdcf, Option.some.injEq, Prod.mk.injEq] at hstep
        obtain ⟨rfl, rfl⟩ := hstep
        refine ⟨?_, ?_, hle, ?_, ?_, trivial, ?_⟩
        · rw [hbc]
          simp [inCrit]
        · rw [hbc]
          simp [inCrit]
        · intro e he
          exact absurd he (by simp)
        · intro h1 h2
          rw [hcc0] at h1
          simp at h1
        · exact pcInv_notCrit_storeNone hbc hst hb
  | hookStep =>
    simp only [taskStep, Option.some.injEq, Prod.mk.injEq] at hstep
    obtain ⟨rfl, rfl⟩ := hstep
    exact ⟨hm, hl, hle, hlink, hg4, ha, hb⟩
  | processCreate d =>
    simp only [taskStep, Option.some.injEq, Prod.mk.injEq] at hstep
    obtain ⟨rfl, rfl⟩ := hstep
    exact ⟨hm, hl, hle, hlink, hg4, ha, hb⟩
  | createCall d u =>
    simp only [taskStep, Option.some.injEq, Prod.mk.injEq] at hstep
    obtain ⟨rfl, rfl⟩ := hstep
    obtain ⟨hstn, hcc0⟩ := ha
    have hbc : inCrit b = false := by
      cases hcb : inCrit b
      · rfl
      · exact absurd ⟨rfl, hcb⟩ hm
    refine ⟨hm, hl, ?_, ?_, ?_, ⟨hstn, ?_⟩, ?_⟩
    · simp [hcc0]
    · intro e he
      simp only at he
      rw [hstn] at he
      simp at he
    · intro _ _
      exact Or.inl rfl
    · simp [hcc0]
    · exact pcInv_notCrit_storeNone hbc hstn hb
  | getUid d u m =>
    simp only [taskStep, Option.some.injEq, Prod.mk.injEq] at hstep
    obtain ⟨rfl, rfl⟩ := hstep
    exact ⟨hm, hl, hle, hlink, hg4, ha, hb⟩
  | opSet d u m uid =>
    simp only [taskStep, Option.some.injEq, Prod.mk.injEq] at hstep
    obtain ⟨rfl, rfl⟩ := hstep
    obtain ⟨hstn, hcc1⟩ := ha
    have hbc : inCrit b = false := by
      cases hcb : inCrit b
      · rfl
      · exact absurd ⟨rfl, hcb⟩ hm
    refine ⟨hm, hl, hle, ?_, ?_, ⟨hstn, hcc1⟩, ?_⟩
    · intro e he
      simp only at he
      rw [hstn] at he
      simp at he
    · intro _ _
      exact Or.inl rfl
    · refine pcInv_notCrit hbc ?_ hb
      rfl
  | entrySet e =>
    simp only [taskStep, Option.some.injEq, Prod.mk.injEq] at hstep
    obtain ⟨rfl, rfl⟩ := hstep
    obtain ⟨hstn, hcc1⟩ := ha
    have hbc : inCrit b = false := by
      cases hcb : inCrit b
      · rfl
      · exact absurd ⟨rfl, hcb⟩ hm
    refine ⟨?_, ?_, hle, ?_, ?_, ⟨e, rfl, rfl⟩, ?_⟩
    · rw [hbc]
      simp [inCrit]
    · rw [hbc]
      simp [inCrit]
    · intro e2 _
      exact hcc1
    · intro _ h2
      simp at h2
    · exact pcInv_notCrit_storeNone hbc hstn hb
  | roomOpE r =>
    simp only [taskStep, Option.some.injEq, Prod.mk.injEq] at hstep
    obtain ⟨rfl, rfl⟩ := hstep
    exact ⟨hm, hl, hle, hlink, hg4, ha, hb⟩
  | processE r =>
    simp only [taskStep, Option.some.injEq, Prod.mk.injEq] at hstep
    obtain ⟨rfl, rfl⟩ := hstep
    obtain ⟨e, he, hmx⟩ := ha
    exact ⟨hm, hl, hle, hlink, hg4, ⟨e, he, by rw [applyRoomUpdate_mxid]; exact hmx⟩, hb⟩
  | nameE r u =>
    simp only [taskStep, Option.some.injEq, Prod.mk.injEq] at hstep
    obtain ⟨rfl, rfl⟩ := hstep
    exact ⟨hm, hl, hle, hlink, hg4, ha, hb⟩
  | avatarE r u =>
    simp only [taskStep, Option.some.injEq, Prod.mk.injEq] at hstep
    obtain ⟨rfl, rfl⟩ := hstep
    exact ⟨hm, hl, hle, hlink, hg4, ha, hb⟩
  | topicE r u =>
    simp only [taskStep, Option.some.injEq, Prod.mk.injEq] at hstep
    obtain ⟨rfl, rfl⟩ := hstep
    obtain ⟨e, he, hmx⟩ := ha
    refine ⟨hm, hl, hle, hlink, hg4, ⟨e, he, ?_⟩, hb⟩
    by_cases h1 : topicChangedB data r = true <;> by_cases h2 : groupChangedB data r = true <;>
      simp [h1, h2, hmx]
  | entrySetE r doU =>
    simp only [taskStep, Option.some.injEq, Prod.mk.injEq] at hstep
    obtain ⟨rfl, rfl⟩ := hstep
    obtain ⟨e, he, hmx⟩ := ha
    have hbc : inCrit b = false := by
      cases hcb : inCrit b
      · rfl
      · exact absurd ⟨rfl, hcb⟩ hm
    have hcc1 : sh.createCalls = 1 := hlink e he
    cases doU with
    | false =>
      refine ⟨?_, ?_, hle, ?_, ?_, ⟨e, ?_, hmx⟩, ?_⟩
      · rw [hbc]
        simp [inCrit]
      · rw [hbc]
        simp [inCrit]
      · intro e2 he2
        simp only at he2
        exact hlink e2 he2
      · intro _ h2
        simp only at h2
        rw [he] at h2
        simp at h2
      · simp only
        exact he
      · refine pcInv_notCrit hbc ?_ hb
        rfl
    | true =>
      refine ⟨?_, ?_, hle, ?_, ?_, ⟨r, rfl, rfl⟩, ?_⟩
      · rw [hbc]
        simp [inCrit]
      · rw [hbc]
        simp [inCrit]
      · intro e2 _
        exact hcc1
      · intro _ h2
        simp at h2
      · cases b with
        | done m2 =>
          obtain ⟨e2, he2, hm2⟩ := hb
          rw [he] at he2
          injection he2 with he2e
          refine ⟨r, rfl, ?_⟩
          rw [← hmx, he2e]
          exact hm2
        | start => trivial
        | doneNC => trivial
        | readStore => trivial
        | hookStep => simp [inCrit] at hbc
        | processCreate d2 => simp [inCrit] at hbc
        | createCall d2 u2 => simp [inCrit] at hbc
        | getUid d2 u2 m2 => simp [inCrit] at hbc
        | opSet d2 u2 m2 uid2 => simp [inCrit] at hbc
        | entrySet e2 => simp [inCrit] at hbc
        | roomOpE r2 => simp [inCrit] at hbc
        | processE r2 => simp [inCrit] at hbc
        | nameE r2 u2 => simp [inCrit] at hbc
        | avatarE r2 u2 => simp [inCrit] at hbc
        | topicE r2 u2 => simp [inCrit] at hbc
        | entrySetE r2 d2 => simp [inCrit] at hbc
  | doneNC => simp [taskStep] at hstep
  | done m => simp [taskStep] at hstep

theorem c1Inv_init : C1Inv c1Init := by
  simp [C1Inv, c1Init, inCrit, pcInv]

theorem c1Inv_swap {sh : Shared} {a b : TaskPc} (h : C1Inv ⟨sh, a, b⟩) : C1Inv ⟨sh, b, a⟩ := by
  simp only [C1Inv] at h ⊢
  obtain ⟨hm, hl, hle, hlink, hg4, ha, hb⟩ := h
  refine ⟨fun hc => hm ⟨hc.2, hc.1⟩, ?_, hle, hlink, ?_, hb, ha⟩
  · rw [hl, Bool.or_comm]
  · intro h1 h2
    exact (hg4 h1 h2).symm

theorem c1Inv_run (env : C1Env) (data : RemoteRoom) {c : C1State}
    (h : Relation.ReflTransGen (C1Step env data) c1Init c) : C1Inv c := by
  induction h with
  | refl => exact c1Inv_init
  | tail hsteps hstep ih =>
    cases hstep with
    | left h2 => exact taskStep_preserves env data ih h2
    | right h2 => exact c1Inv_swap (taskStep_preserves env data (c1Inv_swap ih) h2)

theorem getMxid_concurrent_single_creation (env : C1Env) (data : RemoteRoom)
    (hdc : env.doCreate = true) {c : C1State} {m1 m2 : String}
    (hrun : Relation.ReflTransGen (C1Step env data) c1Init c)
    (ha : c.a = TaskPc.done m1) (hb : c.b = TaskPc.done m2) :
    m1 = m2 ∧ c.sh.createCalls = 1 ∧ ∃ e, c.sh.store = some e ∧ e.mxid = m1 := by
  have hinv := c1Inv_run env data hrun
  simp only [C1Inv] at hinv
  obtain ⟨-, -, -, hlink, -, hA, hB⟩ := hinv
  rw [ha] at hA
  rw [hb] at hB
  simp only [pcInv] at hA hB
  obtain ⟨e1, he1, hm1x⟩ := hA
  obtain ⟨e2, he2, hm2x⟩ := hB
  have he12 : e1 = e2 := by
    rw [he1] at he2
    exact Option.some.inj he2
  refine ⟨?_, hlink e1 he1, e1, he1, hm1x⟩
  rw [← hm1x, he12]
  exact hm2x

theorem c1RunW : Relation.ReflTransGen (C1Step c1EnvW dataRoomW) c1Init c1FinalW := by
  have h1 : C1Step c1EnvW dataRoomW c1Init
      ⟨⟨true, none, none, 0⟩, TaskPc.readStore, TaskPc.start⟩ :=
    C1Step.left (by decide)
  have h2 : C1Step c1EnvW dataRoomW
      ⟨⟨true, none, none, 0⟩, TaskPc.readStore, TaskPc.start⟩
      ⟨⟨true, none, none, 0⟩, TaskPc.processCreate dataRoomW, TaskPc.start⟩ :=
    C1Step.left (by decide)
  have h3 : C1Step c1EnvW dataRoomW
      ⟨⟨true, none, none, 0⟩, TaskPc.processCreate dataRoomW, TaskPc.start⟩
      ⟨⟨true, none, none, 0⟩,
        TaskPc.createCall dataRoomW ⟨some "General", none, none⟩, TaskPc.start⟩ :=
    C1Step.left (by decide)
  have h4 : C1Step c1EnvW dataRoomW
      ⟨⟨true, none, none, 0⟩,
        TaskPc.createCall dataRoomW ⟨some "General", none, none⟩, TaskPc.start⟩
      ⟨⟨true, none, none, 1⟩,
        TaskPc.getUid dataRoomW ⟨some "General", none, none⟩ "!r0", TaskPc.start⟩ :=
    C1Step.left (by decide)
  have h5 : C1Step c1EnvW dataRoomW
      ⟨⟨true, none, none, 1⟩,
        TaskPc.getUid dataRoomW ⟨some "General", none, none⟩ "!r0", TaskPc.start⟩
      ⟨⟨true, none, none, 1⟩,
        TaskPc.opSet dataRoomW ⟨some "General", none, none⟩ "!r0" "@bot:hs", TaskPc.start⟩ :=
    C1Step.left (by decide)
  have h6 : C1Step c1EnvW dataRoomW
      ⟨⟨true, none, none, 1⟩,
        TaskPc.opSet dataRoomW ⟨some "General", none, none⟩ "!r0" "@bot:hs", TaskPc.start⟩
      ⟨⟨true, none, some "@bot:hs", 1⟩, TaskPc.entrySet c1EntryW, TaskPc.start⟩ :=
    C1Step.left (by decide)
  have h7 : C1Step c1EnvW dataRoomW
      ⟨⟨true, none, some "@bot:hs", 1⟩, TaskPc.entrySet c1EntryW, TaskPc.start⟩
      ⟨⟨false, some c1EntryW, some "@bot:hs", 1⟩, TaskPc.done "!r0", TaskPc.start⟩ :=
    C1Step.left (by decide)
  have h8 : C1Step c1EnvW dataRoomW
      ⟨⟨false, some c1EntryW, some "@bot:hs", 1⟩, TaskPc.done "!r0", TaskPc.start⟩
      ⟨⟨true, some c1EntryW, some "@bot:hs", 1⟩, TaskPc.done "!r0", TaskPc.readStore⟩ :=
    C1Step.right (by decide)
  have h9 : C1Step c1EnvW dataRoomW
      ⟨⟨true, some c1EntryW, some "@bot:hs", 1⟩, TaskPc.done "!r0", TaskPc.readStore⟩
      ⟨⟨true, some c1EntryW, some "@bot:hs", 1⟩, TaskPc.done "!r0", TaskPc.roomOpE c1EntryW⟩ :=
    C1Step.right (by decide)
  have h10 : C1Step c1EnvW dataRoomW
      ⟨⟨true, some c1EntryW, some "@bot:hs", 1⟩, TaskPc.done "!r0", TaskPc.roomOpE c1EntryW⟩
      ⟨⟨true, some c1EntryW, some "@bot:hs", 1⟩, TaskPc.done "!r0", TaskPc.processE c1EntryW⟩ :=
    C1Step.right (by decide)
  have h11 : C1Step c1EnvW dataRoomW
      ⟨⟨true, some c1EntryW, some "@bot:hs", 1⟩, TaskPc.done "!r0", TaskPc.processE c1EntryW⟩
      ⟨⟨true, some c1EntryW, some "@bot:hs", 1⟩, TaskPc.done "!r0",
        TaskPc.nameE c1EntryW ⟨none, none, none⟩⟩ :=
    C1Step.right (by decide)
  have h12 : C1Step c1EnvW dataRoomW
      ⟨⟨true, some c1EntryW, some "@bot:hs", 1⟩, TaskPc.done "!r0",
        TaskPc.nameE c1EntryW ⟨none, none, none⟩⟩
      ⟨⟨true, some c1EntryW, some "@bot:hs", 1⟩, TaskPc.done "!r0",
        TaskPc.avatarE c1EntryW ⟨none, none, none⟩⟩ :=
    C1Step.right (by decide)
  have h13 : C1Step c1EnvW dataRoomW
      ⟨⟨true, some c1EntryW, some "@bot:hs", 1⟩, TaskPc.done "!r0",
        TaskPc.avatarE c1EntryW ⟨none, none, none⟩⟩
      ⟨⟨true, some c1EntryW, some "@bot:hs", 1⟩, TaskPc.done "!r0",
        TaskPc.topicE c1EntryW ⟨none, none, none⟩⟩ :=
    C1Step.right (by decide)
  have h14 : C1Step c1EnvW dataRoomW
      ⟨⟨true, some c1EntryW, some "@bot:hs", 1⟩, TaskPc.done "!r0",
        TaskPc.topicE c1EntryW ⟨none, none, none⟩⟩
      ⟨⟨true, some c1EntryW, some "@bot:hs", 1⟩, TaskPc.done "!r0",
        TaskPc.entrySetE c1EntryW false⟩ :=
    C1Step.right (by decide)
  have h15 : C1Step c1EnvW dataRoomW
      ⟨⟨true, some c1EntryW, some "@bot:hs", 1⟩, TaskPc.done "!r0",
        TaskPc.entrySetE c1EntryW false⟩
      c1FinalW :=
    C1Step.right (by decide)
  exact Relation.ReflTransGen.head h1 (Relation.ReflTransGen.head h2
    (Relation.ReflTransGen.head h3 (Relation.ReflTransGen.head h4
    (Relation.ReflTransGen.head h5 (Relation.ReflTransGen.head h6
    (Relation.ReflTransGen.head h7 (Relation.ReflTransGen.head h8
    (Relation.ReflTransGen.head h9 (Relation.ReflTransGen.head h10
    (Relation.ReflTransGen.head h11 (Relation.ReflTransGen.head h12
    (Relation.ReflTransGen.head h13 (Relation.ReflTransGen.head h14
    (Relation.ReflTransGen.head h15 Relation.ReflTransGen.refl))))))))))))))

theorem getMxid_concurrent_single_creation_witness :
    "!r0" = "!r0" ∧ c1FinalW.sh.createCalls = 1 ∧
      ∃ e, c1FinalW.sh.store = some e ∧ e.mxid = "!r0" :=
  getMxid_concurrent_single_creation c1EnvW dataRoomW rfl c1RunW rfl rfl

end MxPuppetBridge
